import Mathlib

/-!
Shallow embedding of the order / promotion / loyalty / payment subsystem of the
restaurant-management backend (FastAPI routes in `app/routes/{orders,menus,
promotions,loyalty,payments}.py` and the pydantic models in `app/models/`).

Conventions:
* Python floats are modelled as `Rat`; Python ints as `Int` (ids as `Nat`).
* Prisma tables are lists of records; `find_unique`/`find_first` are `List.find?`
  and `update where id` is a `List.map` that rewrites the matching record.
* Route handlers become functions `State → request → Except ErrKind (State × resp)`.
  `HTTPException` status codes map to `ErrKind`: 404 → `notFound`, 403 →
  `forbidden`, 400 → `invalidRequest`, 422 (pydantic model rejection) →
  `validationError`, 502 → `badGateway`, 503 → `serviceUnavailable`.
* Pydantic field validation runs before a handler body; it is embedded as a
  boolean gate at the top of each handler.
-/

namespace Api

inductive ErrKind
  | notFound
  | forbidden
  | invalidRequest
  | validationError
  | badGateway
  | serviceUnavailable
deriving DecidableEq, Repr

inductive Role
  | client
  | waiter
  | chef
  | manager
  | admin
deriving DecidableEq, Repr

inductive OrderType
  | dineIn
  | takeaway
  | delivery
deriving DecidableEq, Repr

inductive OrderStatus
  | pending
  | confirmed
  | preparing
  | ready
  | outForDelivery
  | completed
  | cancelled
deriving DecidableEq, Repr

inductive PayStatus
  | pending
  | paid
  | failed
  | refunded
deriving DecidableEq, Repr

/-! ### Promotion evaluator (`app/routes/promotions.py`, `calculate_promotion_discount`) -/

inductive DiscountType
  | percentage
  | fixedAmount
deriving DecidableEq, Repr

/-- A promotion row joined with its restaurant's `isActive` flag, as fetched by
`calculate_promotion_discount` (`include: restaurant.isActive`). -/
structure Promotion where
  restaurantIsActive : Bool
  isActive : Bool
  startDate : Int
  endDate : Int
  maxUses : Option Int
  currentUses : Int
  minOrderAmount : Option Rat
  discountType : DiscountType
  discountValue : Rat
deriving DecidableEq, Repr

structure PromotionUsageResponse where
  applicable : Bool
  discountAmount : Rat
  finalAmount : Rat
deriving DecidableEq, Repr

/-- `if promotion.maxUses and promotion.currentUses >= promotion.maxUses`.
Python truthiness: `None` and `0` are both falsy. -/
def usageLimitReached (p : Promotion) : Bool :=
  match p.maxUses with
  | none => false
  | some m => m != 0 && decide (m ≤ p.currentUses)

/-- `if promotion.minOrderAmount and request.orderAmount < promotion.minOrderAmount`.
Python truthiness: `None` and `0.0` are both falsy. -/
def belowMinOrder (p : Promotion) (orderAmount : Rat) : Bool :=
  match p.minOrderAmount with
  | none => false
  | some m => m != 0 && decide (orderAmount < m)

/-- Embeds `calculate_promotion_discount` (promotions.py lines 148-237), for an
existing promotion; `now` is `datetime.now()` at call time. -/
def calculate_promotion_discount (p : Promotion) (now : Int) (orderAmount : Rat) :
    PromotionUsageResponse :=
  if p.restaurantIsActive = false then
    { applicable := false, discountAmount := 0, finalAmount := orderAmount }
  else if p.isActive = false then
    { applicable := false, discountAmount := 0, finalAmount := orderAmount }
  else if now < p.startDate then
    { applicable := false, discountAmount := 0, finalAmount := orderAmount }
  else if p.endDate < now then
    { applicable := false, discountAmount := 0, finalAmount := orderAmount }
  else if usageLimitReached p then
    { applicable := false, discountAmount := 0, finalAmount := orderAmount }
  else if belowMinOrder p orderAmount then
    { applicable := false, discountAmount := 0, finalAmount := orderAmount }
  else
    let discount : Rat :=
      match p.discountType with
      | .percentage => orderAmount * p.discountValue / 100
      | .fixedAmount => min p.discountValue orderAmount
    { applicable := true, discountAmount := discount,
      finalAmount := max 0 (orderAmount - discount) }

/-- The discount formula of the spec: `orderAmount*value/100` for PERCENTAGE,
`min(value, orderAmount)` for FIXED_AMOUNT. -/
def specDiscount (p : Promotion) (orderAmount : Rat) : Rat :=
  match p.discountType with
  | .percentage => orderAmount * p.discountValue / 100
  | .fixedAmount => min p.discountValue orderAmount

/-- The claim's non-applicability condition, read literally: restaurant inactive,
promotion inactive, `now < startDate`, `now > endDate`, maxUses set and reached,
or `orderAmount < minOrderAmount` (minOrderAmount set). -/
def claimNotApplicable (p : Promotion) (now : Int) (orderAmount : Rat) : Prop :=
  p.restaurantIsActive = false ∨ p.isActive = false ∨ now < p.startDate ∨
  p.endDate < now ∨ (∃ m, p.maxUses = some m ∧ m ≤ p.currentUses) ∨
  (∃ m, p.minOrderAmount = some m ∧ orderAmount < m)

/-- Claim C2 read literally, as a proposition. -/
def specC2 : Prop :=
  ∀ (p : Promotion) (now : Int) (orderAmount : Rat),
    ((calculate_promotion_discount p now orderAmount).applicable = false ↔
      claimNotApplicable p now orderAmount) ∧
    (claimNotApplicable p now orderAmount →
      calculate_promotion_discount p now orderAmount =
        { applicable := false, discountAmount := 0, finalAmount := orderAmount }) ∧
    (¬ claimNotApplicable p now orderAmount →
      calculate_promotion_discount p now orderAmount =
        { applicable := true, discountAmount := specDiscount p orderAmount,
          finalAmount := max 0 (orderAmount - specDiscount p orderAmount) })

/-- Non-applicability as the code actually decides it: the two optional bounds
count as "set" only when nonzero (Python truthiness). -/
def amendedNotApplicable (p : Promotion) (now : Int) (orderAmount : Rat) : Prop :=
  p.restaurantIsActive = false ∨ p.isActive = false ∨ now < p.startDate ∨
  p.endDate < now ∨ (∃ m, p.maxUses = some m ∧ m ≠ 0 ∧ m ≤ p.currentUses) ∨
  (∃ m, p.minOrderAmount = some m ∧ m ≠ 0 ∧ orderAmount < m)

/-- The counterexample promotion for C2: active everywhere, `minOrderAmount`
present but equal to 0. -/
def promoMinZero : Promotion :=
  { restaurantIsActive := true, isActive := true, startDate := 0, endDate := 10,
    maxUses := none, currentUses := 0, minOrderAmount := some 0,
    discountType := .percentage, discountValue := 20 }

/-- The scenario promotion of C2: PERCENTAGE 20, minOrderAmount 50. -/
def promo20 : Promotion :=
  { restaurantIsActive := true, isActive := true, startDate := 0, endDate := 10,
    maxUses := none, currentUses := 0, minOrderAmount := some 50,
    discountType := .percentage, discountValue := 20 }

/-! ### Order engine (`app/routes/orders.py`) and dish stock (`app/routes/menus.py`) -/

structure Dish where
  id : Nat
  price : Rat
  isAvailable : Bool
  quantity : Int
deriving DecidableEq, Repr

structure Restaurant where
  id : Nat
  isActive : Bool
deriving DecidableEq, Repr

structure DiningTable where
  id : Nat
  restaurantId : Nat
  isActive : Bool
deriving DecidableEq, Repr

/-- The slice of a user profile that `create_order` reads: the optional stored
address (used for delivery orders with no explicit `deliveryAddressId`). -/
structure UserProfile where
  id : Nat
  addressId : Option Nat
deriving DecidableEq, Repr

/-- One line of an order request (`OrderItemCreate`). -/
structure OrderItemReq where
  dishId : Nat
  quantity : Int
deriving DecidableEq, Repr

/-- `PublicOrderCreate` (models/order.py): customer name/phone/notes omitted. -/
structure PublicOrderCreate where
  restaurantId : Nat
  tableId : Option Nat
  type : OrderType
  items : List OrderItemReq
  deliveryAddressId : Option Nat
deriving DecidableEq, Repr

/-- `OrderCreate` (models/order.py): notes omitted. -/
structure OrderCreate where
  restaurantId : Nat
  tableId : Option Nat
  type : OrderType
  deliveryAddressId : Option Nat
  items : List OrderItemReq
deriving DecidableEq, Repr

structure OrderRec where
  id : Nat
  userId : Option Nat
  restaurantId : Nat
  tableId : Option Nat
  type : OrderType
  status : OrderStatus
  subtotal : Rat
  deliveryFee : Rat
  discount : Rat
  totalAmount : Rat
  paymentStatus : PayStatus
  deliveryAddressId : Option Nat
deriving DecidableEq, Repr

structure OrderItemRec where
  orderId : Nat
  dishId : Nat
  quantity : Int
  unitPrice : Rat
  totalPrice : Rat
deriving DecidableEq, Repr

structure OrdersState where
  restaurants : List Restaurant
  tables : List DiningTable
  dishes : List Dish
  users : List UserProfile
  orders : List OrderRec
  orderItems : List OrderItemRec
  nextOrderId : Nat
deriving DecidableEq, Repr

/-- Pydantic validation on `items`: `min_items=1` on the list and
`quantity: int = Field(..., ge=1)` per line. -/
def validItems (items : List OrderItemReq) : Bool :=
  decide (1 ≤ items.length) && items.all (fun i => decide (1 ≤ i.quantity))

/-- `db.dish.find_unique(where={"id": id})`. -/
def findDish (dishes : List Dish) (id : Nat) : Option Dish :=
  dishes.find? (fun d => d.id == id)

/-- A line of `validated_items`: the fetched dish snapshot plus the requested
quantity and the price/total snapshots taken from it. -/
structure ValidatedItem where
  dish : Dish
  quantity : Int
  unitPrice : Rat
  totalPrice : Rat
deriving DecidableEq, Repr

/-- The per-item validation loop shared by `create_public_order` and
`create_order`: fetch each dish (404 if absent), reject unavailable dishes and
lines exceeding the fetched quantity, and snapshot price and line total.
All fetches read the dish store as it was before any stock write. -/
def validateItems (dishes : List Dish) : List OrderItemReq → Except ErrKind (List ValidatedItem)
  | [] => .ok []
  | item :: rest =>
    match findDish dishes item.dishId with
    | none => .error .notFound
    | some dish =>
      if dish.isAvailable = false then .error .invalidRequest
      else if dish.quantity < item.quantity then .error .invalidRequest
      else
        match validateItems dishes rest with
        | .error e => .error e
        | .ok tail =>
          .ok ({ dish := dish, quantity := item.quantity, unitPrice := dish.price,
                 totalPrice := dish.price * (item.quantity : Rat) } :: tail)

/-- `subtotal` accumulated by the validation loop. -/
def subtotalOf (vs : List ValidatedItem) : Rat :=
  (vs.map (fun v => v.totalPrice)).sum

/-- `db.dish.update(where={"id": id}, data={"quantity": q})`: rewrites the
quantity of the matching dish, leaving every other field (notably
`isAvailable`) unchanged. -/
def updateDishQty (dishes : List Dish) (id : Nat) (q : Int) : List Dish :=
  dishes.map (fun d => if d.id == id then { d with quantity := q } else d)

/-- The post-insert write loop: for each validated line, set the dish's stored
quantity to `item_data["dish"].quantity - item_data["quantity"]`, i.e. the
pre-order snapshot minus that line's quantity. -/
def applyStockWrites (dishes : List Dish) (vs : List ValidatedItem) : List Dish :=
  vs.foldl (fun ds v => updateDishQty ds v.dish.id (v.dish.quantity - v.quantity)) dishes

/-- Shared tail of both creation endpoints once all validation has passed:
persist the order (status PENDING, paymentStatus PENDING), one OrderItem per
validated line, and run the stock-write loop. -/
def persistOrder (s : OrdersState) (userId : Option Nat) (restaurantId : Nat)
    (tableId : Option Nat) (type : OrderType) (deliveryAddressId : Option Nat)
    (vs : List ValidatedItem) (subtotal fee : Rat) : OrdersState × OrderRec :=
  let order : OrderRec :=
    { id := s.nextOrderId, userId := userId, restaurantId := restaurantId,
      tableId := tableId, type := type, status := .pending, subtotal := subtotal,
      deliveryFee := fee, discount := 0, totalAmount := subtotal + fee - 0,
      paymentStatus := .pending, deliveryAddressId := deliveryAddressId }
  let newItems : List OrderItemRec :=
    vs.map (fun v =>
      { orderId := order.id, dishId := v.dish.id, quantity := v.quantity,
        unitPrice := v.unitPrice, totalPrice := v.totalPrice })
  ({ s with dishes := applyStockWrites s.dishes vs,
            orders := s.orders ++ [order],
            orderItems := s.orderItems ++ newItems,
            nextOrderId := s.nextOrderId + 1 }, order)

/-- Embeds `create_public_order` (orders.py lines 20-193). Guards in source
order: only DINE_IN (403), tableId required (400), restaurant exists and active
(404), table exists in that restaurant and active (404), non-empty items (400),
per-item validation, fixed delivery fee (50 iff DELIVERY), zero discount, and
the 1000-unit public ceiling (400). -/
def create_public_order (s : OrdersState) (req : PublicOrderCreate) :
    Except ErrKind (OrdersState × OrderRec) :=
  if validItems req.items = false then .error .validationError
  else if req.type ≠ OrderType.dineIn then .error .forbidden
  else
    match req.tableId with
    | none => .error .invalidRequest
    | some tid =>
      match s.restaurants.find? (fun r => r.id == req.restaurantId) with
      | none => .error .notFound
      | some r =>
        if r.isActive = false then .error .notFound
        else
          match s.tables.find? (fun t => t.id == tid && t.restaurantId == req.restaurantId) with
          | none => .error .notFound
          | some t =>
            if t.isActive = false then .error .notFound
            else if req.items.isEmpty then .error .invalidRequest
            else
              match validateItems s.dishes req.items with
              | .error e => .error e
              | .ok vs =>
                let subtotal := subtotalOf vs
                let fee : Rat := if req.type = OrderType.delivery then 50 else 0
                let total := subtotal + fee - 0
                if (1000 : Rat) < total then .error .invalidRequest
                else .ok (persistOrder s none req.restaurantId (some tid) req.type
                            req.deliveryAddressId vs subtotal fee)

/-- The delivery-address step of `create_order`: delivery orders need an
address from the request or, failing that, the user's stored default (400 when
neither exists); other order types pass the request value through. -/
def resolveDeliveryAddress (type : OrderType) (reqAddr userAddr : Option Nat) :
    Except ErrKind (Option Nat) :=
  if type = OrderType.delivery then
    match reqAddr, userAddr with
    | none, none => .error .invalidRequest
    | none, some a => .ok (some a)
    | some a, _ => .ok (some a)
  else .ok reqAddr

/-- The `if order_data.tableId:` block of `create_order`: a supplied table must
exist in the order's restaurant and be active. -/
def checkTable (tables : List DiningTable) (restaurantId : Nat) (tableId : Option Nat) :
    Except ErrKind Unit :=
  match tableId with
  | none => .ok ()
  | some tid =>
    match tables.find? (fun t => t.id == tid && t.restaurantId == restaurantId) with
    | none => .error .notFound
    | some t => if t.isActive = false then .error .notFound else .ok ()

/-- Embeds the authenticated `create_order` (orders.py lines 198-363). Guards in
source order: user profile exists (404), the delivery-address step, restaurant
exists and active (404), table validated only when supplied (404), non-empty
items (400), per-item validation, fee 50 iff DELIVERY, zero discount. There is
no order-type restriction and no amount ceiling. -/
def create_order (s : OrdersState) (userId : Nat) (req : OrderCreate) :
    Except ErrKind (OrdersState × OrderRec) :=
  if validItems req.items = false then .error .validationError
  else
    match s.users.find? (fun u => u.id == userId) with
    | none => .error .notFound
    | some user =>
      match resolveDeliveryAddress req.type req.deliveryAddressId user.addressId with
      | .error e => .error e
      | .ok deliveryAddressId =>
        match s.restaurants.find? (fun r => r.id == req.restaurantId) with
        | none => .error .notFound
        | some r =>
          if r.isActive = false then .error .notFound
          else
            match checkTable s.tables req.restaurantId req.tableId with
            | .error e => .error e
            | .ok _ =>
              if req.items.isEmpty then .error .invalidRequest
              else
                match validateItems s.dishes req.items with
                | .error e => .error e
                | .ok vs =>
                  let subtotal := subtotalOf vs
                  let fee : Rat := if req.type = OrderType.delivery then 50 else 0
                  .ok (persistOrder s (some userId) req.restaurantId req.tableId
                        req.type deliveryAddressId vs subtotal fee)

/-- Embeds `update_dish_quantity` (menus.py lines 544-589). `quantity` carries
`Query(..., ge=0)`; the handler finds the dish (404), checks the staff scope
(`authorized` abstracts `role == ADMIN or restaurantId == dish.category.menu.
restaurantId`), then writes the quantity together with
`isAvailable = quantity > 0`. -/
def update_dish_quantity (s : OrdersState) (dishId : Nat) (quantity : Int)
    (authorized : Bool) : Except ErrKind (OrdersState × Dish) :=
  if quantity < 0 then .error .validationError
  else
    match findDish s.dishes dishId with
    | none => .error .notFound
    | some dish =>
      if authorized = false then .error .forbidden
      else
        let newDish : Dish :=
          { dish with quantity := quantity, isAvailable := decide (0 < quantity) }
        .ok ({ s with dishes := s.dishes.map (fun d =>
                 if d.id == dishId then
                   { d with quantity := quantity, isAvailable := decide (0 < quantity) }
                 else d) }, newDish)

/-! ### The operation sequences of claim C1 -/

/-- One stock-affecting request: a public order, an authenticated order, or a
staff quantity update. -/
inductive StoreOp
  | publicOrder (req : PublicOrderCreate)
  | authOrder (userId : Nat) (req : OrderCreate)
  | setQuantity (dishId : Nat) (q : Int) (authorized : Bool)
deriving DecidableEq, Repr

/-- Run one request against the store; a failed request leaves the state
unchanged (every `HTTPException` above is raised before the first write). -/
def stepState (s : OrdersState) : StoreOp → OrdersState
  | .publicOrder req =>
    match create_public_order s req with
    | .ok out => out.1
    | .error _ => s
  | .authOrder uid req =>
    match create_order s uid req with
    | .ok out => out.1
    | .error _ => s
  | .setQuantity d q a =>
    match update_dish_quantity s d q a with
    | .ok out => out.1
    | .error _ => s

def runOps (s : OrdersState) (ops : List StoreOp) : OrdersState :=
  ops.foldl stepState s

/-- Claim C1's per-dish invariant, read literally: quantity never negative and
`isAvailable` cleared whenever quantity is 0. -/
def dishClaimInv (s : OrdersState) : Prop :=
  ∀ d ∈ s.dishes, 0 ≤ d.quantity ∧ (d.quantity = 0 → d.isAvailable = false)

/-- Claim C1 read literally: the invariant is preserved by every sequence of
order-creation, stock-decrement and staff quantity-update operations. -/
def specC1 : Prop :=
  ∀ (s : OrdersState) (ops : List StoreOp), dishClaimInv s → dishClaimInv (runOps s ops)

/-- Quantities are never negative. -/
def dishNonneg (s : OrdersState) : Prop :=
  ∀ d ∈ s.dishes, 0 ≤ d.quantity

/-! ### Loyalty ledger (`app/routes/loyalty.py`, `app/models/loyalty.py`) -/

inductive TxnType
  | earned
  | redeemed
  | bonus
  | expired
deriving DecidableEq, Repr

structure LoyaltyCard where
  id : Nat
  userId : Nat
  points : Int
deriving DecidableEq, Repr

structure LoyaltyTxn where
  loyaltyCardId : Nat
  restaurantId : Nat
  points : Int
  type : TxnType
  orderId : Option Nat
deriving DecidableEq, Repr

structure LoyaltyState where
  restaurants : List Restaurant
  orders : List OrderRec
  cards : List LoyaltyCard
  txns : List LoyaltyTxn
  nextCardId : Nat
deriving DecidableEq, Repr

/-- `PointsRedemptionRequest` (models/loyalty.py lines 74-85). -/
structure PointsRedemptionRequest where
  restaurantId : Nat
  pointsToRedeem : Int
deriving DecidableEq, Repr

/-- Pydantic validation of `pointsToRedeem`: `Field(..., gt=0)` and the
multiple-of-10 validator. -/
def validRedemption (pointsToRedeem : Int) : Bool :=
  decide (0 < pointsToRedeem) && decide (pointsToRedeem % 10 = 0)

structure PointsRedemptionResponse where
  success : Bool
  pointsRedeemed : Int
  discountAmount : Rat
  remainingPoints : Int
deriving DecidableEq, Repr

/-- Fixed program constants returned by `get_loyalty_program_info`:
`pointsPerDollar = 1.0`, `pointsToMoneyRatio = 100`, `minimumRedemption = 100`. -/
def minimumRedemption : Int := 100

def pointsToMoneyRatio : Int := 100

/-- Embeds `redeem_points` (loyalty.py lines 223-300). Source order of checks:
card exists (404), balance sufficient (400), at least the program minimum (400),
restaurant exists and active (404); then one REDEEMED transaction with the
negated point count is inserted and the cached balance decremented. -/
def redeem_points (s : LoyaltyState) (userId : Nat) (req : PointsRedemptionRequest) :
    Except ErrKind (LoyaltyState × PointsRedemptionResponse) :=
  if validRedemption req.pointsToRedeem = false then .error .validationError
  else
    match s.cards.find? (fun c => c.userId == userId) with
    | none => .error .notFound
    | some card =>
      if card.points < req.pointsToRedeem then .error .invalidRequest
      else if req.pointsToRedeem < minimumRedemption then .error .invalidRequest
      else
        match s.restaurants.find? (fun r => r.id == req.restaurantId) with
        | none => .error .notFound
        | some r =>
          if r.isActive = false then .error .notFound
          else
            let discountAmount : Rat := (req.pointsToRedeem : Rat) / (pointsToMoneyRatio : Rat)
            let txn : LoyaltyTxn :=
              { loyaltyCardId := card.id, restaurantId := req.restaurantId,
                points := -req.pointsToRedeem, type := .redeemed, orderId := none }
            let newPoints := card.points - req.pointsToRedeem
            .ok ({ s with txns := s.txns ++ [txn],
                          cards := s.cards.map (fun c =>
                            if c.id == card.id then { c with points := newPoints } else c) },
                 { success := true, pointsRedeemed := req.pointsToRedeem,
                   discountAmount := discountAmount, remainingPoints := newPoints })

/-- `PointsEarnedRequest` (models/loyalty.py): `orderAmount` validated `> 0`. -/
structure PointsEarnedRequest where
  orderId : Nat
  restaurantId : Nat
  orderAmount : Rat
deriving DecidableEq, Repr

structure PointsEarnedResponse where
  pointsEarned : Int
  totalPoints : Int
deriving DecidableEq, Repr

/-- Python `int(x)` on a float: truncation toward zero. -/
def pyInt (q : Rat) : Int :=
  if 0 ≤ q then ⌊q⌋ else -⌊-q⌋

/-- The mutation tail of `award_points_for_order` once every check has passed:
fetch the customer's card or lazily create a zero-balance one, insert one
EARNED transaction linked to the order, and set the cached balance to the
fetched balance plus the awarded points. -/
def awardApply (s : LoyaltyState) (ownerId restaurantId orderId : Nat)
    (pointsEarned : Int) : LoyaltyState × PointsEarnedResponse :=
  match s.cards.find? (fun c => c.userId == ownerId) with
  | some card =>
    ({ s with
       cards := s.cards.map (fun c =>
         if c.id == card.id then { c with points := card.points + pointsEarned } else c),
       txns := s.txns ++ [⟨card.id, restaurantId, pointsEarned, .earned, some orderId⟩] },
     { pointsEarned := pointsEarned, totalPoints := card.points + pointsEarned })
  | none =>
    ({ s with
       cards := (s.cards ++ [(⟨s.nextCardId, ownerId, 0⟩ : LoyaltyCard)]).map (fun c =>
         if c.id == s.nextCardId then { c with points := (0 : Int) + pointsEarned } else c),
       txns := s.txns ++ [⟨s.nextCardId, restaurantId, pointsEarned, .earned, some orderId⟩],
       nextCardId := s.nextCardId + 1 },
     { pointsEarned := pointsEarned, totalPoints := (0 : Int) + pointsEarned })

/-- Embeds `award_points_for_order` (loyalty.py lines 305-414). Source order of
checks: staff role in ADMIN/MANAGER/WAITER (403), order exists (404), order has
an owning user (400), restaurant scope for non-admins (403), order COMPLETED
(400), no prior EARNED transaction for this order (400); then
`points_earned = int(orderAmount * 1.0)` and `awardApply` runs. -/
def award_points_for_order (s : LoyaltyState) (role : Role)
    (actorRestaurantId : Option Nat) (req : PointsEarnedRequest) :
    Except ErrKind (LoyaltyState × PointsEarnedResponse) :=
  if (req.orderAmount ≤ 0 : Prop) then .error .validationError
  else if role ∉ [Role.admin, Role.manager, Role.waiter] then .error .forbidden
  else
    match s.orders.find? (fun o => o.id == req.orderId) with
    | none => .error .notFound
    | some ord =>
      match ord.userId with
      | none => .error .invalidRequest
      | some ownerId =>
        if role ≠ Role.admin ∧ actorRestaurantId ≠ some ord.restaurantId then
          .error .forbidden
        else if ord.status ≠ OrderStatus.completed then .error .invalidRequest
        else if (s.txns.find? (fun t => t.orderId == some req.orderId &&
                   t.type == TxnType.earned)).isSome then .error .invalidRequest
        else .ok (awardApply s ownerId req.restaurantId req.orderId
                    (pyInt (req.orderAmount * 1)))

/-- `LoyaltyTransactionCreate` (models/loyalty.py lines 24-39). -/
structure LoyaltyTransactionCreate where
  loyaltyCardId : Nat
  restaurantId : Nat
  points : Int
  type : TxnType
  orderId : Option Nat
deriving DecidableEq, Repr

/-- Embeds the `validate_points` pydantic validator on `LoyaltyTransactionCreate`.
Its body reads `type` out of `values`, the dict of previously validated fields;
fields validate in declaration order and `points` is declared before `type`, so
at validation time `typeInValues` is `none` and the body's sign checks are
skipped. The `some` branch transcribes the checks the body would make. -/
def validate_points (typeInValues : Option TxnType) (v : Int) : Bool :=
  match typeInValues with
  | none => true
  | some t =>
    match t with
    | .redeemed => decide (v ≤ 0)
    | .earned => decide (0 < v)
    | .bonus => decide (0 < v)
    | .expired => true

/-- The sign rule the claim (and the validator's author) intends: REDEEMED
deltas negative, EARNED/BONUS deltas positive. -/
def claimSignRule (t : TxnType) (v : Int) : Bool :=
  match t with
  | .redeemed => decide (v < 0)
  | .earned => decide (0 < v)
  | .bonus => decide (0 < v)
  | .expired => true

/-- Embeds `create_manual_loyalty_transaction` (loyalty.py lines 516-573).
Source order of checks: pydantic validation (with `typeInValues = none`, see
`validate_points`), role ADMIN/MANAGER (403), restaurant scope for non-admins
(403), card exists (404), and for REDEEMED only `card.points ≥ |points|` (400);
then the transaction is inserted as given and the cached balance updated by the
same delta. -/
def create_manual_loyalty_transaction (s : LoyaltyState) (role : Role)
    (actorRestaurantId : Option Nat) (data : LoyaltyTransactionCreate) :
    Except ErrKind (LoyaltyState × LoyaltyTxn) :=
  if validate_points none data.points = false then .error .validationError
  else if role ∉ [Role.admin, Role.manager] then .error .forbidden
  else if role ≠ Role.admin ∧ actorRestaurantId ≠ some data.restaurantId then
    .error .forbidden
  else
    match s.cards.find? (fun c => c.id == data.loyaltyCardId) with
    | none => .error .notFound
    | some card =>
      if data.type = TxnType.redeemed ∧ card.points < data.points.natAbs then
        .error .invalidRequest
      else
        let txn : LoyaltyTxn :=
          { loyaltyCardId := data.loyaltyCardId, restaurantId := data.restaurantId,
            points := data.points, type := data.type, orderId := data.orderId }
        .ok ({ s with txns := s.txns ++ [txn],
                      cards := s.cards.map (fun c =>
                        if c.id == data.loyaltyCardId then
                          { c with points := card.points + data.points } else c) },
             txn)

/-- At most one EARNED transaction per order id. -/
def atMostOneEarned (s : LoyaltyState) : Prop :=
  ∀ oid : Nat,
    (s.txns.filter (fun t => t.orderId == some oid && t.type == TxnType.earned)).length ≤ 1

/-- Claim C4 read literally: both inserting endpoints preserve the
at-most-one-EARNED-per-order invariant. -/
def specC4 : Prop :=
  (∀ (s : LoyaltyState) (role : Role) (arid : Option Nat) (req : PointsEarnedRequest)
     (out : LoyaltyState × PointsEarnedResponse),
     award_points_for_order s role arid req = .ok out →
     atMostOneEarned s → atMostOneEarned out.1) ∧
  (∀ (s : LoyaltyState) (role : Role) (arid : Option Nat)
     (data : LoyaltyTransactionCreate) (out : LoyaltyState × LoyaltyTxn),
     create_manual_loyalty_transaction s role arid data = .ok out →
     atMostOneEarned s → atMostOneEarned out.1)

/-! ### Payment gateway adapter (`app/routes/payments.py`) -/

/-- The order fields `initiate_payment` reads. -/
structure PayOrderRec where
  id : Nat
  userId : Option Nat
  restaurantId : Nat
  totalAmount : Rat
  paymentStatus : PayStatus
deriving DecidableEq, Repr

/-- A row of the `payments` table: the external transaction id keyed by order. -/
structure PaymentRec where
  id : Nat
  paymentId : String
  orderId : Nat
deriving DecidableEq, Repr

structure PaymentsState where
  orders : List PayOrderRec
  payments : List PaymentRec
  nextPaymentId : Nat
deriving DecidableEq, Repr

/-- Outcome of the `requests.post` call to the gateway, as the handler
distinguishes them: a parsed 2xx-shaped body with `data.id`,
`data.attributes.form_url`, `data.attributes.amount`; unparseable JSON; a JSON
body missing `data`; or a connection/timeout failure. -/
inductive GatewayReply
  | ok (txnId : String) (formUrl : String) (amount : String)
  | invalidJson
  | missingData
  | connectionError
deriving DecidableEq, Repr

structure PaymentInitiateResponse where
  success : Bool
  paymentId : Option Nat
  transactionId : Option String
  formUrl : Option String
  errorCode : Option String
deriving DecidableEq, Repr

/-- Embeds `initiate_payment` (payments.py lines 97-237). Source order:
gateway configured (503), order exists (404), CLIENT actors must own the order
(403), not already PAID (400); if a payment row already exists for the order the
handler returns a non-error response flagged `PAYMENT_EXISTS` and writes
nothing; otherwise the gateway is called (any malformed or failed reply → 502)
and on success one payment row is inserted. The markdown unwrapping of
`form_url` only rewrites the returned string and is elided. -/
def initiate_payment (configured : Bool) (s : PaymentsState) (actorId : Nat)
    (role : Role) (orderId : Nat) (gw : GatewayReply) :
    Except ErrKind (PaymentsState × PaymentInitiateResponse) :=
  if configured = false then .error .serviceUnavailable
  else
    match s.orders.find? (fun o => o.id == orderId) with
    | none => .error .notFound
    | some ord =>
      if role = Role.client ∧ ord.userId ≠ some actorId then .error .forbidden
      else if ord.paymentStatus = PayStatus.paid then .error .invalidRequest
      else
        match s.payments.find? (fun p => p.orderId == orderId) with
        | some _ =>
          .ok (s, { success := false, paymentId := none, transactionId := none,
                    formUrl := none, errorCode := some "PAYMENT_EXISTS" })
        | none =>
          match gw with
          | .connectionError => .error .badGateway
          | .invalidJson => .error .badGateway
          | .missingData => .error .badGateway
          | .ok txnId formUrl _amount =>
            let payment : PaymentRec :=
              { id := s.nextPaymentId, paymentId := txnId, orderId := orderId }
            .ok ({ s with payments := s.payments ++ [payment],
                          nextPaymentId := s.nextPaymentId + 1 },
                 { success := true, paymentId := some payment.id,
                   transactionId := some txnId, formUrl := some formUrl,
                   errorCode := none })

/-! ### Auxiliary definitions used to state the claims -/

/-- The validated line that `validateItems` produces for a request line, written
as a function of the pre-order dish store (the `none` branch is never reached on
a successful validation). -/
def snapOf (dishes : List Dish) (i : OrderItemReq) : ValidatedItem :=
  match findDish dishes i.dishId with
  | some dish =>
    { dish := dish, quantity := i.quantity, unitPrice := dish.price,
      totalPrice := dish.price * (i.quantity : Rat) }
  | none =>
    { dish := { id := 0, price := 0, isAvailable := false, quantity := 0 },
      quantity := i.quantity, unitPrice := 0, totalPrice := 0 }

/-- Modelled from the spec: "subtotal is the sum over items of the dish's
current price times the requested quantity" (missing dishes contribute 0;
a successful creation has none). -/
def specSubtotal (dishes : List Dish) (items : List OrderItemReq) : Rat :=
  (items.map (fun i =>
    (((findDish dishes i.dishId).map (fun d => d.price)).getD 0) * (i.quantity : Rat))).sum

/-- The quantity of the last request line naming dish `d`, if any. -/
def lastLineQty (items : List OrderItemReq) (d : Nat) : Option Int :=
  ((items.filter (fun i => i.dishId == d)).getLast?).map (fun i => i.quantity)

/-- Claim C7's first guard read literally: a public submission whose type is not
DINE_IN is rejected with `InvalidRequest`. -/
def specC7 : Prop :=
  ∀ (s : OrdersState) (req : PublicOrderCreate),
    req.type ≠ OrderType.dineIn → create_public_order s req = .error ErrKind.invalidRequest

/-- A one-dish, one-table store used by the concrete counterexamples: dish 1 has
price 10, one unit in stock, and is available. -/
def cexStore : OrdersState :=
  { restaurants := [{ id := 1, isActive := true }],
    tables := [{ id := 1, restaurantId := 1, isActive := true }],
    dishes := [{ id := 1, price := 10, isAvailable := true, quantity := 1 }],
    users := [{ id := 1, addressId := some 4 }],
    orders := [], orderItems := [], nextOrderId := 1 }

/-- A public dine-in order for one unit of dish 1. -/
def cexPublicReq : PublicOrderCreate :=
  { restaurantId := 1, tableId := some 1, type := .dineIn,
    items := [{ dishId := 1, quantity := 1 }], deliveryAddressId := none }

/-- A public delivery order with a perfectly valid item line. -/
def cexDeliveryReq : PublicOrderCreate :=
  { restaurantId := 1, tableId := some 1, type := .delivery,
    items := [{ dishId := 1, quantity := 1 }], deliveryAddressId := none }

def cexAuthReq : OrderCreate :=
  { restaurantId := 1, tableId := none, type := .delivery, deliveryAddressId := none,
    items := [{ dishId := 1, quantity := 1 }] }

/-- Dish 1 after its single unit is sold: stock 0, still available. -/
def cexDishSoldOut : Dish := { id := 1, price := 10, isAvailable := true, quantity := 0 }

def cexItemRec : OrderItemRec :=
  { orderId := 1, dishId := 1, quantity := 1, unitPrice := 10, totalPrice := 10 }

def cexPubOrder : OrderRec :=
  { id := 1, userId := none, restaurantId := 1, tableId := some 1, type := .dineIn,
    status := .pending, subtotal := 10, deliveryFee := 0, discount := 0, totalAmount := 10,
    paymentStatus := .pending, deliveryAddressId := none }

def cexPubState : OrdersState :=
  { cexStore with
    dishes := [cexDishSoldOut],
    orders := [cexPubOrder],
    orderItems := [cexItemRec],
    nextOrderId := 2 }

def cexAuthOrder : OrderRec :=
  { id := 1, userId := some 1, restaurantId := 1, tableId := none, type := .delivery,
    status := .pending, subtotal := 10, deliveryFee := 50, discount := 0, totalAmount := 60,
    paymentStatus := .pending, deliveryAddressId := some 4 }

def cexAuthState : OrdersState :=
  { cexStore with
    dishes := [cexDishSoldOut],
    orders := [cexAuthOrder],
    orderItems := [cexItemRec],
    nextOrderId := 2 }

def cexUpdDish : Dish := { id := 1, price := 10, isAvailable := false, quantity := 0 }

def cexUpdState : OrdersState :=
  { cexStore with
    dishes := [cexUpdDish] }

def noTableReq : PublicOrderCreate :=
  { restaurantId := 1, tableId := none, type := .dineIn,
    items := [{ dishId := 1, quantity := 1 }], deliveryAddressId := none }

/-- Dish 1 at price 2000: a single unit already exceeds the public ceiling. -/
def bigDish : Dish := { id := 1, price := 2000, isAvailable := true, quantity := 5 }

def bigStore : OrdersState :=
  { restaurants := [{ id := 1, isActive := true }],
    tables := [{ id := 1, restaurantId := 1, isActive := true }],
    dishes := [bigDish],
    users := [{ id := 1, addressId := some 4 }],
    orders := [], orderItems := [], nextOrderId := 1 }

def bigPublicReq : PublicOrderCreate :=
  { restaurantId := 1, tableId := some 1, type := .dineIn,
    items := [{ dishId := 1, quantity := 1 }], deliveryAddressId := none }

def bigAuthReq : OrderCreate :=
  { restaurantId := 1, tableId := none, type := .delivery, deliveryAddressId := none,
    items := [{ dishId := 1, quantity := 1 }] }

def bigVs : List ValidatedItem :=
  [{ dish := bigDish, quantity := 1, unitPrice := 2000, totalPrice := 2000 }]

/-- Dish 1 with 5 units, for the duplicate-line scenario. -/
def dupDish : Dish := { id := 1, price := 10, isAvailable := true, quantity := 5 }

def dupStore : OrdersState :=
  { restaurants := [{ id := 1, isActive := true }],
    tables := [{ id := 1, restaurantId := 1, isActive := true }],
    dishes := [dupDish],
    users := [{ id := 1, addressId := some 4 }],
    orders := [], orderItems := [], nextOrderId := 1 }

/-- Two lines for the same dish: 3 and 4 units, summing past the stock of 5. -/
def dupReq : OrderCreate :=
  { restaurantId := 1, tableId := none, type := .dineIn, deliveryAddressId := none,
    items := [{ dishId := 1, quantity := 3 }, { dishId := 1, quantity := 4 }] }

def awardOrder : OrderRec :=
  { id := 7, userId := some 7, restaurantId := 1, tableId := none, type := .dineIn,
    status := .completed, subtotal := 30, deliveryFee := 0, discount := 0, totalAmount := 30,
    paymentStatus := .paid, deliveryAddressId := none }

def awardState : LoyaltyState :=
  { restaurants := [], orders := [awardOrder],
    cards := [{ id := 1, userId := 7, points := 150 }], txns := [], nextCardId := 2 }

/-- An award request for 30.5 currency units: 30 points after flooring. -/
def awardReq : PointsEarnedRequest := { orderId := 7, restaurantId := 1, orderAmount := 61/2 }

def awardTxn : LoyaltyTxn := ⟨1, 1, 30, .earned, some 7⟩

def awardState2 : LoyaltyState :=
  { awardState with
    cards := [{ id := 1, userId := 7, points := 180 }],
    txns := [awardTxn] }

def awardResp : PointsEarnedResponse := { pointsEarned := 30, totalPoints := 180 }

def loyCard : LoyaltyCard := { id := 1, userId := 7, points := 150 }

def loyState : LoyaltyState :=
  { restaurants := [{ id := 1, isActive := true }], orders := [], cards := [loyCard],
    txns := [], nextCardId := 2 }

def redeemReq : PointsRedemptionRequest := { restaurantId := 1, pointsToRedeem := 150 }

def redeemState2 : LoyaltyState :=
  { loyState with
    txns := [⟨1, 1, -150, .redeemed, none⟩],
    cards := [{ id := 1, userId := 7, points := 0 }] }

def redeemResp : PointsRedemptionResponse :=
  { success := true, pointsRedeemed := 150, discountAmount := 3/2, remainingPoints := 0 }

def c4Card : LoyaltyCard := { id := 1, userId := 7, points := 0 }

def c4Txn0 : LoyaltyTxn := ⟨1, 1, 5, .earned, some 7⟩

def c4State : LoyaltyState :=
  { restaurants := [], orders := [], cards := [c4Card], txns := [c4Txn0], nextCardId := 2 }

def c4Data : LoyaltyTransactionCreate :=
  { loyaltyCardId := 1, restaurantId := 1, points := 50, type := .earned, orderId := some 7 }

def c4Txn : LoyaltyTxn := ⟨1, 1, 50, .earned, some 7⟩

def c4State2 : LoyaltyState :=
  { c4State with
    txns := [c4Txn0, c4Txn],
    cards := [{ id := 1, userId := 7, points := 50 }] }

def c9Card : LoyaltyCard := { id := 1, userId := 7, points := 100 }

def c9State : LoyaltyState :=
  { restaurants := [], orders := [], cards := [c9Card], txns := [], nextCardId := 2 }

/-- A REDEEMED manual entry whose points value is positive. -/
def c9Data : LoyaltyTransactionCreate :=
  { loyaltyCardId := 1, restaurantId := 1, points := 50, type := .redeemed, orderId := none }

def c9Txn : LoyaltyTxn := ⟨1, 1, 50, .redeemed, none⟩

def c9State2 : LoyaltyState :=
  { c9State with
    txns := [c9Txn],
    cards := [{ id := 1, userId := 7, points := 150 }] }

def payOrder : PayOrderRec :=
  { id := 5, userId := some 1, restaurantId := 1, totalAmount := 100,
    paymentStatus := .pending }

def payState : PaymentsState := { orders := [payOrder], payments := [], nextPaymentId := 1 }

def payRec : PaymentRec := { id := 1, paymentId := "T1", orderId := 5 }

def payState2 : PaymentsState :=
  { payState with
    payments := [payRec],
    nextPaymentId := 2 }

def payGw : GatewayReply := .ok "T1" "U" "A"

def paidOrder : PayOrderRec := { payOrder with paymentStatus := .paid }

def payPaidState : PaymentsState :=
  { orders := [paidOrder], payments := [], nextPaymentId := 1 }

def payFlagged : PaymentInitiateResponse :=
  { success := false, paymentId := none, transactionId := none, formUrl := none,
    errorCode := some "PAYMENT_EXISTS" }

def paySucc : PaymentInitiateResponse :=
  { success := true, paymentId := some 1, transactionId := some "T1", formUrl := some "U",
    errorCode := none }

/-! ## Lemmas and claim theorems -/

theorem usageLimitReached_iff (p : Promotion) :
    usageLimitReached p = true ↔ ∃ m, p.maxUses = some m ∧ m ≠ 0 ∧ m ≤ p.currentUses := by
  unfold usageLimitReached
  cases hm : p.maxUses with
  | none => simp
  | some m => simp [bne_iff_ne]

theorem belowMinOrder_iff (p : Promotion) (amount : Rat) :
    belowMinOrder p amount = true ↔ ∃ m, p.minOrderAmount = some m ∧ m ≠ 0 ∧ amount < m := by
  unfold belowMinOrder
  cases hm : p.minOrderAmount with
  | none => simp
  | some m => simp [bne_iff_ne]

theorem calculate_cases (p : Promotion) (now : Int) (amount : Rat) :
    (amendedNotApplicable p now amount ∧ calculate_promotion_discount p now amount =
      { applicable := false, discountAmount := 0, finalAmount := amount }) ∨
    (¬ amendedNotApplicable p now amount ∧ calculate_promotion_discount p now amount =
      { applicable := true, discountAmount := specDiscount p amount,
        finalAmount := max 0 (amount - specDiscount p amount) }) := by
  unfold calculate_promotion_discount amendedNotApplicable
  split_ifs with h1 h2 h3 h4 h5 h6
  · exact Or.inl ⟨Or.inl h1, rfl⟩
  · exact Or.inl ⟨Or.inr (Or.inl h2), rfl⟩
  · exact Or.inl ⟨Or.inr (Or.inr (Or.inl h3)), rfl⟩
  · exact Or.inl ⟨Or.inr (Or.inr (Or.inr (Or.inl h4))), rfl⟩
  · exact Or.inl ⟨Or.inr (Or.inr (Or.inr (Or.inr (Or.inl
      ((usageLimitReached_iff p).1 h5))))), rfl⟩
  · exact Or.inl ⟨Or.inr (Or.inr (Or.inr (Or.inr (Or.inr
      ((belowMinOrder_iff p amount).1 h6))))), rfl⟩
  · refine Or.inr ⟨?_, by simp [specDiscount]⟩
    rintro (h | h | h | h | h | h)
    · exact h1 h
    · exact h2 h
    · exact h3 h
    · exact h4 h
    · exact h5 ((usageLimitReached_iff p).2 h)
    · exact h6 ((belowMinOrder_iff p amount).2 h)

/-- C2 counterexample: the claim reads the `minOrderAmount` gate as applying
whenever `minOrderAmount` is set, but the handler's Python truthiness test
skips it when the stored minimum is `0`. With `minOrderAmount = 0` and
`orderAmount = -1` the claim demands `applicable = false` while the code
returns `applicable = true`. -/
theorem promotion_calculate_spec_refuted : ¬ specC2 := by
  intro h
  have h1 := (h promoMinZero 5 (-1)).1
  have hA : claimNotApplicable promoMinZero 5 (-1) :=
    Or.inr (Or.inr (Or.inr (Or.inr (Or.inr ⟨0, rfl, by norm_num⟩))))
  have hfalse := h1.mpr hA
  have htrue : (calculate_promotion_discount promoMinZero 5 (-1)).applicable = true := by
    norm_num [calculate_promotion_discount, promoMinZero, usageLimitReached, belowMinOrder]
  rw [hfalse] at htrue
  cases htrue

/-- C2 (amended): `calculate` returns `applicable = false` with zero discount
and `finalAmount = orderAmount` exactly when the restaurant is inactive, the
promotion is inactive, `now < startDate`, `now > endDate`, `maxUses` is set,
nonzero and reached, or `minOrderAmount` is set, nonzero and
`orderAmount < minOrderAmount`; otherwise it returns `applicable = true` with
the claimed discount formula and `finalAmount = max 0 (orderAmount - discount)`.
The 20%-promotion scenario behaves as the claim states. -/
theorem promotion_calculate_characterization (p : Promotion) (now : Int) (amount : Rat) :
    (((calculate_promotion_discount p now amount).applicable = false) ↔
      amendedNotApplicable p now amount) ∧
    (amendedNotApplicable p now amount → calculate_promotion_discount p now amount =
      { applicable := false, discountAmount := 0, finalAmount := amount }) ∧
    (¬ amendedNotApplicable p now amount → calculate_promotion_discount p now amount =
      { applicable := true, discountAmount := specDiscount p amount,
        finalAmount := max 0 (amount - specDiscount p amount) }) ∧
    calculate_promotion_discount promo20 5 100 =
      { applicable := true, discountAmount := 20, finalAmount := 80 } ∧
    calculate_promotion_discount promo20 5 40 =
      { applicable := false, discountAmount := 0, finalAmount := 40 } := by
  have sc1 : calculate_promotion_discount promo20 5 100 =
      { applicable := true, discountAmount := 20, finalAmount := 80 } := by
    norm_num [calculate_promotion_discount, promo20, usageLimitReached, belowMinOrder]
  have sc2 : calculate_promotion_discount promo20 5 40 =
      { applicable := false, discountAmount := 0, finalAmount := 40 } := by
    norm_num [calculate_promotion_discount, promo20, usageLimitReached, belowMinOrder]
  rcases calculate_cases p now amount with ⟨hA, heq⟩ | ⟨hA, heq⟩
  · exact ⟨⟨fun _ => hA, fun _ => by rw [heq]⟩, fun _ => heq,
      fun hc => absurd hA hc, sc1, sc2⟩
  · refine ⟨⟨fun hf => ?_, fun h => absurd h hA⟩, fun h => absurd h hA, fun _ => heq, sc1, sc2⟩
    rw [heq] at hf
    cases hf

/-- Witness for C2 (amended): an applicable evaluation at a concrete promotion
and amount. -/
theorem promotion_calculate_characterization_witness :
    calculate_promotion_discount promoMinZero 5 200 =
      { applicable := true, discountAmount := 40, finalAmount := 160 } := by
  have h := (promotion_calculate_characterization promoMinZero 5 200).2.2.1
  have hn : ¬ amendedNotApplicable promoMinZero 5 200 := by
    rintro (hc | hc | hc | hc | ⟨m, hm, hne, hle⟩ | ⟨m, hm, hne, hlt⟩) <;>
      simp_all [promoMinZero]
  rw [h hn]
  norm_num [specDiscount, promoMinZero]


/-! ### Order-engine lemmas -/

theorem validItems_not_isEmpty {items : List OrderItemReq} (h : validItems items = true) :
    items.isEmpty = false := by
  cases items with
  | nil => simp [validItems] at h
  | cons a l => rfl

theorem validateItems_ok_eq {dishes : List Dish} {items : List OrderItemReq}
    {vs : List ValidatedItem} (h : validateItems dishes items = .ok vs) :
    vs = items.map (snapOf dishes) := by
  induction items generalizing vs with
  | nil =>
    unfold validateItems at h
    simpa using (Except.ok.inj h).symm
  | cons i rest ih =>
    unfold validateItems at h
    split at h
    · cases h
    · rename_i dish hdish
      split at h
      · cases h
      · split at h
        · cases h
        · split at h
          · cases h
          · rename_i tail htail
            have ht := ih htail
            rw [List.map_cons, ← ht, (Except.ok.inj h).symm]
            congr 1
            simp [snapOf, hdish]

theorem validateItems_ok_facts {dishes : List Dish} {items : List OrderItemReq}
    {vs : List ValidatedItem} (h : validateItems dishes items = .ok vs) :
    ∀ v ∈ vs, v.quantity ≤ v.dish.quantity ∧ v.dish.isAvailable = true := by
  induction items generalizing vs with
  | nil =>
    unfold validateItems at h
    obtain rfl : ([] : List ValidatedItem) = vs := Except.ok.inj h
    intro v hv
    cases hv
  | cons i rest ih =>
    unfold validateItems at h
    split at h
    · cases h
    · rename_i dish hdish
      split at h
      · cases h
      · rename_i hav
        split at h
        · cases h
        · rename_i hqty
          split at h
          · cases h
          · rename_i tail htail
            obtain rfl := (Except.ok.inj h).symm
            intro w hw
            rcases List.mem_cons.1 hw with rfl | hw
            · exact ⟨le_of_not_lt hqty, Bool.ne_false_iff.mp hav⟩
            · exact ih htail w hw

theorem validateItems_isOk_of {dishes : List Dish} {items : List OrderItemReq}
    (h : ∀ i ∈ items, ∃ d, findDish dishes i.dishId = some d ∧
        d.isAvailable = true ∧ i.quantity ≤ d.quantity) :
    ∃ vs, validateItems dishes items = .ok vs := by
  induction items with
  | nil => exact ⟨[], rfl⟩
  | cons i rest ih =>
    obtain ⟨d, hd, hav, hq⟩ := h i (List.mem_cons_self _ _)
    obtain ⟨vs, hvs⟩ := ih (fun j hj => h j (List.mem_cons_of_mem _ hj))
    refine ⟨{ dish := d, quantity := i.quantity, unitPrice := d.price,
              totalPrice := d.price * (i.quantity : Rat) } :: vs, ?_⟩
    unfold validateItems
    simp [hd, hvs, hav, not_lt.2 hq]

theorem updateDishQty_nonneg {dishes : List Dish} {id : Nat} {q : Int}
    (h : ∀ d ∈ dishes, 0 ≤ d.quantity) (hq : 0 ≤ q) :
    ∀ d ∈ updateDishQty dishes id q, 0 ≤ d.quantity := by
  intro d hd
  unfold updateDishQty at hd
  obtain ⟨d0, hd0, rfl⟩ := List.mem_map.1 hd
  split_ifs with hif
  · exact hq
  · exact h d0 hd0

theorem applyStockWrites_nonneg {vs : List ValidatedItem} {dishes : List Dish}
    (h : ∀ d ∈ dishes, 0 ≤ d.quantity)
    (hvs : ∀ v ∈ vs, v.quantity ≤ v.dish.quantity) :
    ∀ d ∈ applyStockWrites dishes vs, 0 ≤ d.quantity := by
  induction vs generalizing dishes with
  | nil => exact h
  | cons v rest ih =>
    exact ih
      (updateDishQty_nonneg h (sub_nonneg.2 (hvs v (List.mem_cons_self _ _))))
      (fun w hw => hvs w (List.mem_cons_of_mem _ hw))

theorem findDish_updateDishQty (dishes : List Dish) (id : Nat) (q : Int) (d : Nat) :
    findDish (updateDishQty dishes id q) d =
      (findDish dishes d).map
        (fun x => if x.id == id then { x with quantity := q } else x) := by
  unfold findDish updateDishQty
  rw [List.find?_map]
  have hp : ((fun x : Dish => x.id == d) ∘ fun x : Dish =>
      if (x.id == id) = true then { x with quantity := q } else x) =
      (fun x : Dish => x.id == d) := by
    funext x
    simp only [Function.comp]
    split_ifs with hif
    · rfl
    · rfl
  rw [hp]

theorem findDish_applyStockWrites (vs : List ValidatedItem) (dishes : List Dish) (d : Nat) :
    findDish (applyStockWrites dishes vs) d =
      match (vs.filter (fun v => v.dish.id == d)).getLast? with
      | none => findDish dishes d
      | some v => (findDish dishes d).map
          (fun x => { x with quantity := v.dish.quantity - v.quantity }) := by
  induction vs using List.reverseRecOn with
  | nil => rfl
  | append_singleton vs v ih =>
    have hstep : applyStockWrites dishes (vs ++ [v]) =
        updateDishQty (applyStockWrites dishes vs) v.dish.id (v.dish.quantity - v.quantity) :=
      List.foldl_concat _ _ _ _
    rw [hstep, findDish_updateDishQty, ih, List.filter_append, List.filter_singleton]
    cases hv : (v.dish.id == d) with
    | true =>
      rw [cond_true, List.getLast?_concat]
      cases hfd : findDish dishes d with
      | none =>
        cases hlast : (vs.filter (fun w => w.dish.id == d)).getLast? <;> simp
      | some x =>
        have hxid : x.id = d := by
          have := List.find?_some hfd
          simpa using this
        have hxv : (x.id == v.dish.id) = true := by
          simp [hxid, eq_of_beq hv]
        cases hlast : (vs.filter (fun w => w.dish.id == d)).getLast? with
        | none =>
          simp [hxv]
          exact fun hcon => absurd (eq_of_beq hxv) hcon
        | some w =>
          simp [hxv]
          exact fun hcon => absurd (eq_of_beq hxv) hcon
    | false =>
      rw [cond_false, List.append_nil]
      cases hfd : findDish dishes d with
      | none =>
        cases hlast : (vs.filter (fun w => w.dish.id == d)).getLast? <;> simp
      | some x =>
        have hxid : x.id = d := by
          have := List.find?_some hfd
          simpa using this
        have hxv : (x.id == v.dish.id) = false := by
          simp only [beq_eq_false_iff_ne, ne_eq, hxid]
          intro hcon
          rw [hcon] at hv
          simp at hv
        cases hlast : (vs.filter (fun w => w.dish.id == d)).getLast? with
        | none =>
          simp [hxv]
          exact fun hcon => absurd hcon (by simpa using hxv)
        | some w =>
          simp [hxv]
          exact fun hcon => absurd hcon (by simpa using hxv)

theorem create_public_order_ok {s : OrdersState} {req : PublicOrderCreate}
    {out : OrdersState × OrderRec} (h : create_public_order s req = .ok out) :
    ∃ tid vs, req.tableId = some tid ∧ req.type = OrderType.dineIn ∧
      validateItems s.dishes req.items = .ok vs ∧
      out = persistOrder s none req.restaurantId (some tid) req.type
              req.deliveryAddressId vs (subtotalOf vs) 0 := by
  unfold create_public_order at h
  split at h
  · cases h
  · split at h
    · cases h
    · rename_i hv hty
      push_neg at hty
      split at h
      · cases h
      · rename_i tid htid
        split at h
        · cases h
        · rename_i r hr
          split at h
          · cases h
          · split at h
            · cases h
            · rename_i t ht
              split at h
              · cases h
              · split at h
                · cases h
                · split at h
                  · cases h
                  · rename_i vs hvs
                    split at h
                    · rename_i hdel
                      rw [hty] at hdel
                      exact absurd hdel (by decide)
                    · simp only [] at h
                      split at h
                      · cases h
                      · exact ⟨tid, vs, htid, hty, hvs, (Except.ok.inj h).symm⟩

theorem create_order_ok {s : OrdersState} {uid : Nat} {req : OrderCreate}
    {out : OrdersState × OrderRec} (h : create_order s uid req = .ok out) :
    ∃ aid vs, validateItems s.dishes req.items = .ok vs ∧
      out = persistOrder s (some uid) req.restaurantId req.tableId req.type
              aid vs (subtotalOf vs) (if req.type = OrderType.delivery then 50 else 0) := by
  unfold create_order at h
  split at h
  · cases h
  · split at h
    · cases h
    · rename_i user huser
      split at h
      · cases h
      · rename_i aid haid
        split at h
        · cases h
        · rename_i r hr
          split at h
          · cases h
          · split at h
            · cases h
            · split at h
              · cases h
              · split at h
                · cases h
                · rename_i vs hvs
                  simp only [] at h
                  split at h
                  · rename_i hdel
                    refine ⟨aid, vs, hvs, ?_⟩
                    rw [if_pos hdel]
                    exact (Except.ok.inj h).symm
                  · rename_i hndel
                    refine ⟨aid, vs, hvs, ?_⟩
                    rw [if_neg hndel]
                    exact (Except.ok.inj h).symm

theorem update_dish_quantity_ok {s : OrdersState} {dishId : Nat} {q : Int} {a : Bool}
    {out : OrdersState × Dish} (h : update_dish_quantity s dishId q a = .ok out) :
    0 ≤ q ∧ ∃ dish, findDish s.dishes dishId = some dish ∧
      out = ({ s with dishes := s.dishes.map (fun d =>
                 if d.id == dishId then { d with quantity := q, isAvailable := decide (0 < q) }
                 else d) },
             { dish with quantity := q, isAvailable := decide (0 < q) }) := by
  unfold update_dish_quantity at h
  split at h
  · cases h
  · rename_i hq
    split at h
    · cases h
    · rename_i dish hdish
      split at h
      · cases h
      · simp only [] at h
        exact ⟨not_lt.1 hq, dish, hdish, (Except.ok.inj h).symm⟩

theorem stepState_nonneg {s : OrdersState} (h : dishNonneg s) (op : StoreOp) :
    dishNonneg (stepState s op) := by
  cases op with
  | publicOrder req =>
    simp only [stepState]
    cases hc : create_public_order s req with
    | error e => exact h
    | ok out =>
      show dishNonneg out.1
      obtain ⟨tid, vs, htid, hty, hvs, hout⟩ := create_public_order_ok hc
      have hdishes : out.1.dishes = applyStockWrites s.dishes vs := by
        rw [hout]
        rfl
      rw [dishNonneg, hdishes]
      exact applyStockWrites_nonneg h (fun v hv => (validateItems_ok_facts hvs v hv).1)
  | authOrder uid req =>
    simp only [stepState]
    cases hc : create_order s uid req with
    | error e => exact h
    | ok out =>
      show dishNonneg out.1
      obtain ⟨aid, vs, hvs, hout⟩ := create_order_ok hc
      have hdishes : out.1.dishes = applyStockWrites s.dishes vs := by
        rw [hout]
        rfl
      rw [dishNonneg, hdishes]
      exact applyStockWrites_nonneg h (fun v hv => (validateItems_ok_facts hvs v hv).1)
  | setQuantity did q a =>
    simp only [stepState]
    cases hc : update_dish_quantity s did q a with
    | error e => exact h
    | ok out =>
      show dishNonneg out.1
      obtain ⟨hq, dish, hdish, hout⟩ := update_dish_quantity_ok hc
      intro d hd
      rw [hout] at hd
      obtain ⟨d0, hd0, rfl⟩ := List.mem_map.1 hd
      split_ifs with hif
      · exact hq
      · exact h d0 hd0

theorem runOps_nonneg {s : OrdersState} (h : dishNonneg s) (ops : List StoreOp) :
    dishNonneg (runOps s ops) := by
  induction ops generalizing s with
  | nil => exact h
  | cons op rest ih => exact ih (stepState_nonneg h op)

theorem findDish_applyStockWrites_isAvailable (vs : List ValidatedItem)
    (dishes : List Dish) (d : Nat) :
    ((findDish (applyStockWrites dishes vs) d).map (fun x => x.isAvailable)) =
      ((findDish dishes d).map (fun x => x.isAvailable)) := by
  rw [findDish_applyStockWrites]
  cases hlast : (vs.filter (fun v => v.dish.id == d)).getLast? with
  | none => rfl
  | some w => cases findDish dishes d <;> rfl

theorem subtotalOf_snapOf (dishes : List Dish) (items : List OrderItemReq) :
    subtotalOf (items.map (snapOf dishes)) = specSubtotal dishes items := by
  unfold subtotalOf specSubtotal
  rw [List.map_map]
  have hfun : ((fun v : ValidatedItem => v.totalPrice) ∘ snapOf dishes) =
      (fun i : OrderItemReq =>
        (((findDish dishes i.dishId).map (fun d => d.price)).getD 0) * (i.quantity : Rat)) := by
    funext i
    simp only [Function.comp, snapOf]
    cases h : findDish dishes i.dishId with
    | none => simp
    | some dish => simp
  rw [hfun]

theorem cexPub_eval : create_public_order cexStore cexPublicReq = .ok (cexPubState, cexPubOrder) := by
  norm_num [create_public_order, cexStore, cexPublicReq, validItems, List.find?, validateItems,
    findDish, subtotalOf, persistOrder, applyStockWrites, updateDishQty, cexPubState, cexPubOrder,
    cexDishSoldOut, cexItemRec,
    (show ¬(OrderType.dineIn = OrderType.delivery) from by decide)]

theorem cexAuth_eval : create_order cexStore 1 cexAuthReq = .ok (cexAuthState, cexAuthOrder) := by
  norm_num [create_order, cexStore, cexAuthReq, validItems, List.find?, validateItems,
    findDish, subtotalOf, persistOrder, applyStockWrites, updateDishQty, cexAuthState,
    cexAuthOrder, cexDishSoldOut, cexItemRec, resolveDeliveryAddress, checkTable]

theorem cexUpd_eval : update_dish_quantity cexStore 1 0 true = .ok (cexUpdState, cexUpdDish) := by
  norm_num [update_dish_quantity, cexStore, findDish, List.find?, cexUpdState, cexUpdDish]



/-- C1 counterexample: from a state satisfying the claimed invariant, one public
order for the last unit of dish 1 succeeds, leaving quantity 0 with
`isAvailable` still set: order-creation stock decrements never clear the flag. -/
theorem dish_invariant_spec_refuted : ¬ specC1 := by
  intro hspec
  have h0 : dishClaimInv cexStore := by
    intro d hd
    simp only [cexStore, List.mem_singleton] at hd
    subst hd
    exact ⟨by norm_num, fun hcon => by norm_num at hcon⟩
  have h1 := hspec cexStore [StoreOp.publicOrder cexPublicReq] h0
  have hrun : runOps cexStore [StoreOp.publicOrder cexPublicReq] = cexPubState := by
    simp [runOps, stepState, cexPub_eval]
  rw [hrun] at h1
  have hmem : cexDishSoldOut ∈ cexPubState.dishes := by
    simp [cexPubState]
  have h3 := (h1 cexDishSoldOut hmem).2 rfl
  simp [cexDishSoldOut] at h3

/-- C1 (amended): dish quantities never go negative under any sequence of
order creations and staff quantity updates (so no order creation drives stock
negative); the staff quantity update sets `isAvailable = (quantity > 0)`,
clearing it at zero; but order-creation stock decrements leave `isAvailable`
unchanged, even when they bring the quantity to 0. -/
theorem dish_stock_invariant_amended :
    (∀ (s : OrdersState) (ops : List StoreOp), dishNonneg s → dishNonneg (runOps s ops)) ∧
    (∀ (s : OrdersState) (dishId : Nat) (q : Int) (a : Bool) (out : OrdersState × Dish),
       update_dish_quantity s dishId q a = .ok out → out.2.isAvailable = decide (0 < q)) ∧
    (∀ (s : OrdersState) (req : PublicOrderCreate) (out : OrdersState × OrderRec),
       create_public_order s req = .ok out → ∀ d : Nat,
         ((findDish out.1.dishes d).map (fun x => x.isAvailable)) =
           ((findDish s.dishes d).map (fun x => x.isAvailable))) ∧
    (∀ (s : OrdersState) (uid : Nat) (req : OrderCreate) (out : OrdersState × OrderRec),
       create_order s uid req = .ok out → ∀ d : Nat,
         ((findDish out.1.dishes d).map (fun x => x.isAvailable)) =
           ((findDish s.dishes d).map (fun x => x.isAvailable))) := by
  refine ⟨fun s ops h => runOps_nonneg h ops, ?_, ?_, ?_⟩
  · intro s dishId q a out h
    obtain ⟨hq, dish, hdish, hout⟩ := update_dish_quantity_ok h
    rw [hout]
  · intro s req out h d
    obtain ⟨tid, vs, htid, hty, hvs, hout⟩ := create_public_order_ok h
    have hdishes : out.1.dishes = applyStockWrites s.dishes vs := by
      rw [hout]
      rfl
    rw [hdishes, findDish_applyStockWrites_isAvailable]
  · intro s uid req out h d
    obtain ⟨aid, vs, hvs, hout⟩ := create_order_ok h
    have hdishes : out.1.dishes = applyStockWrites s.dishes vs := by
      rw [hout]
      rfl
    rw [hdishes, findDish_applyStockWrites_isAvailable]

/-- Witness for C1 (amended), at the concrete store and requests. -/
theorem dish_stock_invariant_amended_witness :
    dishNonneg (runOps cexStore [StoreOp.publicOrder cexPublicReq]) ∧
    cexUpdDish.isAvailable = decide ((0 : Int) < 0) ∧
    ((findDish cexPubState.dishes 1).map (fun x => x.isAvailable)) =
      ((findDish cexStore.dishes 1).map (fun x => x.isAvailable)) ∧
    ((findDish cexAuthState.dishes 1).map (fun x => x.isAvailable)) =
      ((findDish cexStore.dishes 1).map (fun x => x.isAvailable)) := by
  have h0 : dishNonneg cexStore := by
    intro d hd
    simp only [cexStore, List.mem_singleton] at hd
    subst hd
    norm_num
  refine ⟨dish_stock_invariant_amended.1 cexStore _ h0,
          dish_stock_invariant_amended.2.1 cexStore 1 0 true (cexUpdState, cexUpdDish) cexUpd_eval,
          dish_stock_invariant_amended.2.2.1 cexStore cexPublicReq (cexPubState, cexPubOrder)
            cexPub_eval 1,
          dish_stock_invariant_amended.2.2.2 cexStore 1 cexAuthReq (cexAuthState, cexAuthOrder)
            cexAuth_eval 1⟩

/-- C6: every order persisted by either creation endpoint satisfies
`totalAmount = subtotal + deliveryFee - discount`, with `discount = 0`,
`deliveryFee = 50` exactly for DELIVERY orders and 0 otherwise, and `subtotal`
the sum over the request lines of the dish's current price times the requested
quantity. -/
theorem order_total_consistency :
    (∀ (s : OrdersState) (req : PublicOrderCreate) (s2 : OrdersState) (ord : OrderRec),
       create_public_order s req = .ok (s2, ord) →
       ord.totalAmount = ord.subtotal + ord.deliveryFee - ord.discount ∧
       ord.discount = 0 ∧
       ord.deliveryFee = (if ord.type = OrderType.delivery then 50 else 0) ∧
       ord.subtotal = specSubtotal s.dishes req.items) ∧
    (∀ (s : OrdersState) (uid : Nat) (req : OrderCreate) (s2 : OrdersState) (ord : OrderRec),
       create_order s uid req = .ok (s2, ord) →
       ord.totalAmount = ord.subtotal + ord.deliveryFee - ord.discount ∧
       ord.discount = 0 ∧
       ord.deliveryFee = (if ord.type = OrderType.delivery then 50 else 0) ∧
       ord.subtotal = specSubtotal s.dishes req.items) := by
  constructor
  · intro s req s2 ord h
    obtain ⟨tid, vs, htid, hty, hvs, hout⟩ := create_public_order_ok h
    have hord : ord = (persistOrder s none req.restaurantId (some tid) req.type
        req.deliveryAddressId vs (subtotalOf vs) 0).2 := congrArg Prod.snd hout
    subst hord
    refine ⟨rfl, rfl, ?_, ?_⟩
    · show (0 : Rat) = if req.type = OrderType.delivery then (50 : Rat) else (0 : Rat)
      rw [hty, if_neg (show ¬(OrderType.dineIn = OrderType.delivery) from by decide)]
    · show subtotalOf vs = specSubtotal s.dishes req.items
      rw [validateItems_ok_eq hvs, subtotalOf_snapOf]
  · intro s uid req s2 ord h
    obtain ⟨aid, vs, hvs, hout⟩ := create_order_ok h
    have hord : ord = (persistOrder s (some uid) req.restaurantId req.tableId req.type
        aid vs (subtotalOf vs) (if req.type = OrderType.delivery then 50 else 0)).2 :=
      congrArg Prod.snd hout
    subst hord
    refine ⟨rfl, rfl, rfl, ?_⟩
    show subtotalOf vs = specSubtotal s.dishes req.items
    rw [validateItems_ok_eq hvs, subtotalOf_snapOf]

/-- Witness for C6: the two concrete creations. -/
theorem order_total_consistency_witness :
    (cexPubOrder.totalAmount = cexPubOrder.subtotal + cexPubOrder.deliveryFee -
      cexPubOrder.discount ∧
     cexPubOrder.discount = 0 ∧
     cexPubOrder.deliveryFee = (if cexPubOrder.type = OrderType.delivery then 50 else 0) ∧
     cexPubOrder.subtotal = specSubtotal cexStore.dishes cexPublicReq.items) ∧
    (cexAuthOrder.totalAmount = cexAuthOrder.subtotal + cexAuthOrder.deliveryFee -
      cexAuthOrder.discount ∧
     cexAuthOrder.discount = 0 ∧
     cexAuthOrder.deliveryFee = (if cexAuthOrder.type = OrderType.delivery then 50 else 0) ∧
     cexAuthOrder.subtotal = specSubtotal cexStore.dishes cexAuthReq.items) :=
  ⟨order_total_consistency.1 cexStore cexPublicReq cexPubState cexPubOrder cexPub_eval,
   order_total_consistency.2 cexStore 1 cexAuthReq cexAuthState cexAuthOrder cexAuth_eval⟩

/-- C7 counterexample: a public DELIVERY submission with perfectly valid items
is rejected with `Forbidden` (HTTP 403), not `InvalidRequest` (HTTP 400). -/
theorem public_order_error_kind_refuted : ¬ specC7 := by
  intro hspec
  have h1 := hspec cexStore cexDeliveryReq (by decide)
  have h2 : create_public_order cexStore cexDeliveryReq = .error ErrKind.forbidden := by
    simp [create_public_order, cexDeliveryReq, validItems]
  rw [h2] at h1
  exact absurd (Except.error.inj h1) (by decide)

/-- C7 (amended): a public submission whose type is not DINE_IN is rejected
with `Forbidden` regardless of item validity; a DINE_IN submission without a
tableId is rejected with `InvalidRequest`; an otherwise valid public submission
whose computed total exceeds the 1000-unit ceiling is rejected with
`InvalidRequest`; authenticated creation has none of these guards: it succeeds
with no table, a non-DINE_IN type and an arbitrarily large total. -/
theorem public_order_guards :
    (∀ (s : OrdersState) (req : PublicOrderCreate),
       validItems req.items = true → req.type ≠ OrderType.dineIn →
       create_public_order s req = .error ErrKind.forbidden) ∧
    (∀ (s : OrdersState) (req : PublicOrderCreate),
       validItems req.items = true → req.type = OrderType.dineIn → req.tableId = none →
       create_public_order s req = .error ErrKind.invalidRequest) ∧
    (∀ (s : OrdersState) (req : PublicOrderCreate) (tid : Nat) (r : Restaurant)
       (t : DiningTable) (vs : List ValidatedItem),
       validItems req.items = true → req.type = OrderType.dineIn →
       req.tableId = some tid →
       s.restaurants.find? (fun x => x.id == req.restaurantId) = some r →
       r.isActive = true →
       s.tables.find? (fun x => x.id == tid && x.restaurantId == req.restaurantId) = some t →
       t.isActive = true →
       validateItems s.dishes req.items = .ok vs →
       (1000 : Rat) < subtotalOf vs →
       create_public_order s req = .error ErrKind.invalidRequest) ∧
    (∀ (s : OrdersState) (uid : Nat) (req : OrderCreate) (user : UserProfile)
       (aid : Option Nat) (r : Restaurant) (vs : List ValidatedItem),
       validItems req.items = true →
       s.users.find? (fun u => u.id == uid) = some user →
       resolveDeliveryAddress req.type req.deliveryAddressId user.addressId = .ok aid →
       s.restaurants.find? (fun x => x.id == req.restaurantId) = some r →
       r.isActive = true →
       checkTable s.tables req.restaurantId req.tableId = .ok () →
       validateItems s.dishes req.items = .ok vs →
       create_order s uid req = .ok (persistOrder s (some uid) req.restaurantId req.tableId
         req.type aid vs (subtotalOf vs)
         (if req.type = OrderType.delivery then 50 else 0))) := by
  refine ⟨?_, ?_, ?_, ?_⟩
  · intro s req hv hty
    simp [create_public_order, hv, hty]
  · intro s req hv hty htid
    simp [create_public_order, hv, hty, htid]
  · intro s req tid r t vs hv hty htid hr hra ht hta hvs hbig
    have hne := validItems_not_isEmpty hv
    simp [create_public_order, hv, hty, htid, hr, hra, ht, hta, hvs, hne, hbig]
  · intro s uid req user aid r vs hv huser haddr hr hra htab hvs
    have hne := validItems_not_isEmpty hv
    simp [create_order, hv, huser, haddr, hr, hra, htab, hvs, hne]



/-- Witness for C7 (amended): the four guard behaviours at concrete inputs. -/
theorem public_order_guards_witness :
    create_public_order cexStore cexDeliveryReq = .error ErrKind.forbidden ∧
    create_public_order cexStore noTableReq = .error ErrKind.invalidRequest ∧
    create_public_order bigStore bigPublicReq = .error ErrKind.invalidRequest ∧
    create_order bigStore 1 bigAuthReq = .ok (persistOrder bigStore (some 1)
      bigAuthReq.restaurantId bigAuthReq.tableId bigAuthReq.type (some 4) bigVs
      (subtotalOf bigVs) (if bigAuthReq.type = OrderType.delivery then 50 else 0)) := by
  have hvs : validateItems bigStore.dishes bigPublicReq.items = .ok bigVs := by
    norm_num [validateItems, findDish, bigStore, bigPublicReq, List.find?, bigVs, bigDish]
  have hbig : (1000 : Rat) < subtotalOf bigVs := by
    norm_num [subtotalOf, bigVs]
  have hvs2 : validateItems bigStore.dishes bigAuthReq.items = .ok bigVs := by
    norm_num [validateItems, findDish, bigStore, bigAuthReq, List.find?, bigVs, bigDish]
  refine ⟨public_order_guards.1 cexStore cexDeliveryReq ?_ ?_,
          public_order_guards.2.1 cexStore noTableReq ?_ ?_ ?_,
          public_order_guards.2.2.1 bigStore bigPublicReq 1
            { id := 1, isActive := true } { id := 1, restaurantId := 1, isActive := true }
            bigVs ?_ ?_ ?_ ?_ ?_ ?_ ?_ hvs hbig,
          public_order_guards.2.2.2 bigStore 1 bigAuthReq { id := 1, addressId := some 4 }
            (some 4) { id := 1, isActive := true } bigVs ?_ ?_ ?_ ?_ ?_ ?_ hvs2⟩ <;>
    first
    | decide
    | rfl

/-- C10: when an order request names the same dish in several lines, every line
is validated against the dish quantity fetched before any write, and each
per-line stock write stores the pre-order snapshot minus that line's quantity;
so the order succeeds whenever each individual line fits the pre-order stock
(even if the duplicate lines sum to more), and the stored quantity afterwards
is the pre-order quantity minus only the last duplicate line's quantity. -/
theorem duplicate_lines_stock (s : OrdersState) (uid : Nat) (req : OrderCreate)
    (user : UserProfile) (aid : Option Nat) (r : Restaurant)
    (hv : validItems req.items = true)
    (huser : s.users.find? (fun u => u.id == uid) = some user)
    (haddr : resolveDeliveryAddress req.type req.deliveryAddressId user.addressId = .ok aid)
    (hr : s.restaurants.find? (fun x => x.id == req.restaurantId) = some r)
    (hra : r.isActive = true)
    (htab : checkTable s.tables req.restaurantId req.tableId = .ok ())
    (hval : ∀ i ∈ req.items, ∃ dish, findDish s.dishes i.dishId = some dish ∧
        dish.isAvailable = true ∧ i.quantity ≤ dish.quantity) :
    ∃ s2 ord, create_order s uid req = .ok (s2, ord) ∧
      ∀ (d : Nat) (q : Int) (dish : Dish), lastLineQty req.items d = some q →
        findDish s.dishes d = some dish →
        findDish s2.dishes d = some { dish with quantity := dish.quantity - q } := by
  obtain ⟨vs, hvs⟩ := validateItems_isOk_of hval
  have hne := validItems_not_isEmpty hv
  have hok : create_order s uid req = .ok (persistOrder s (some uid) req.restaurantId
      req.tableId req.type aid vs (subtotalOf vs)
      (if req.type = OrderType.delivery then 50 else 0)) := by
    simp [create_order, hv, huser, haddr, hr, hra, htab, hvs, hne]
  refine ⟨_, _, hok, ?_⟩
  intro d q dish hlast hfind
  show findDish (applyStockWrites s.dishes vs) d =
    some { dish with quantity := dish.quantity - q }
  rw [findDish_applyStockWrites]
  have hvs_eq : vs = req.items.map (snapOf s.dishes) := validateItems_ok_eq hvs
  have hfilter : vs.filter (fun v => v.dish.id == d) =
      (req.items.filter (fun i => i.dishId == d)).map (snapOf s.dishes) := by
    rw [hvs_eq, List.filter_map]
    congr 1
    apply List.filter_congr
    intro i hi
    obtain ⟨dishi, hdishi, _, _⟩ := hval i hi
    have hidq : dishi.id = i.dishId := by
      have := List.find?_some hdishi
      simpa using this
    simp only [Function.comp, snapOf, hdishi, hidq]
  obtain ⟨ilast, hilast, hq⟩ := Option.map_eq_some'.1 hlast
  have hmem : ilast ∈ req.items.filter (fun i => i.dishId == d) :=
    List.mem_of_mem_getLast? hilast
  have hid : ilast.dishId = d := by simpa using (List.mem_filter.1 hmem).2
  have hsnap : snapOf s.dishes ilast =
      { dish := dish, quantity := ilast.quantity, unitPrice := dish.price,
        totalPrice := dish.price * (ilast.quantity : Rat) } := by
    simp [snapOf, hid, hfind]
  rw [hfilter, List.getLast?_map, hilast]
  simp [hsnap, hfind, hq]

/-- Witness for C10: two lines of 3 and 4 units against a stock of 5 succeed
and leave quantity 1 = 5 - 4 (only the last line's decrement survives). -/
theorem duplicate_lines_stock_witness :
    lastLineQty dupReq.items 1 = some 4 ∧
    ((create_order dupStore 1 dupReq).map (fun out => findDish out.1.dishes 1)) =
      .ok (some { id := 1, price := 10, isAvailable := true, quantity := 1 }) := by
  have hval : ∀ i ∈ dupReq.items, ∃ dish, findDish dupStore.dishes i.dishId = some dish ∧
      dish.isAvailable = true ∧ i.quantity ≤ dish.quantity := by
    intro i hi
    have hi2 : i ∈ [({ dishId := 1, quantity := 3 } : OrderItemReq),
        { dishId := 1, quantity := 4 }] := hi
    simp only [List.mem_cons, List.not_mem_nil, or_false] at hi2
    rcases hi2 with rfl | rfl
    · exact ⟨dupDish, rfl, rfl, by decide⟩
    · exact ⟨dupDish, rfl, rfl, by decide⟩
  obtain ⟨s2, ord, hok, hfin⟩ := duplicate_lines_stock dupStore 1 dupReq
    { id := 1, addressId := some 4 } none { id := 1, isActive := true }
    (by decide) (by decide) rfl (by decide) rfl rfl hval
  refine ⟨rfl, ?_⟩
  rw [hok]
  have h1 := hfin 1 4 dupDish rfl rfl
  simp only [Except.map, h1]
  norm_num [dupDish]

theorem find?_map_pres {α : Type} (l : List α) (p : α → Bool) (f : α → α)
    (hp : ∀ a, p (f a) = p a) : (l.map f).find? p = (l.find? p).map f := by
  rw [List.find?_map]
  have hfun : p ∘ f = p := funext hp
  rw [hfun]

/-- C3: a successful redemption returns `discountAmount = pointsToRedeem / 100`,
appends exactly one REDEEMED transaction carrying `-pointsToRedeem`, and
decrements the card balance by exactly `pointsToRedeem`; the request is
rejected whenever `pointsToRedeem` is not a positive multiple of 10, is below
the program minimum of 100, or exceeds the card balance. -/
theorem loyalty_redeem_correct (s : LoyaltyState) (userId : Nat)
    (req : PointsRedemptionRequest) (card : LoyaltyCard)
    (hcard : s.cards.find? (fun c => c.userId == userId) = some card) :
    (∀ s2 resp, redeem_points s userId req = .ok (s2, resp) →
       resp.discountAmount = (req.pointsToRedeem : Rat) / 100 ∧
       s2.txns = s.txns ++
         [⟨card.id, req.restaurantId, -req.pointsToRedeem, .redeemed, none⟩] ∧
       s2.cards.find? (fun c => c.userId == userId) =
         some { card with points := card.points - req.pointsToRedeem }) ∧
    (¬ (0 < req.pointsToRedeem ∧ req.pointsToRedeem % 10 = 0) ∨
       req.pointsToRedeem < 100 ∨ card.points < req.pointsToRedeem →
       ∀ out, redeem_points s userId req ≠ .ok out) := by
  constructor
  · intro s2 resp h
    unfold redeem_points at h
    split at h
    · cases h
    · split at h
      · cases h
      · rename_i card' hcard'
        rw [hcard] at hcard'
        obtain rfl : card = card' := Option.some.inj hcard'
        split at h
        · cases h
        · split at h
          · cases h
          · split at h
            · cases h
            · rename_i r hrr
              split at h
              · cases h
              · simp only [] at h
                have hpair := (Except.ok.inj h).symm
                have hs2 : s2 = _ := congrArg Prod.fst hpair
                have hresp : resp = _ := congrArg Prod.snd hpair
                refine ⟨?_, ?_, ?_⟩
                · rw [hresp]
                  norm_num [pointsToMoneyRatio]
                · rw [hs2]
                · rw [hs2]
                  show (s.cards.map (fun c => if c.id == card.id then
                      { c with points := card.points - req.pointsToRedeem } else c)).find?
                      (fun c => c.userId == userId) = _
                  rw [find?_map_pres]
                  · rw [hcard]
                    simp
                  · intro c
                    split_ifs with hif
                    · rfl
                    · rfl
  · intro hbad out h
    unfold redeem_points at h
    split at h
    · cases h
    · rename_i hvr
      split at h
      · cases h
      · rename_i card' hcard'
        rw [hcard] at hcard'
        obtain rfl : card = card' := Option.some.inj hcard'
        split at h
        · cases h
        · rename_i hbal
          split at h
          · cases h
          · rename_i hmin
            have hvr2 : validRedemption req.pointsToRedeem = true := by
              cases hv : validRedemption req.pointsToRedeem
              · exact absurd hv hvr
              · rfl
            have hpos : 0 < req.pointsToRedeem ∧ req.pointsToRedeem % 10 = 0 := by
              simpa [validRedemption] using hvr2
            rcases hbad with hb | hb | hb
            · exact hb hpos
            · exact hmin (by simpa [minimumRedemption] using hb)
            · exact hbal hb

theorem awardApply_spec (s : LoyaltyState) (ownerId restaurantId orderId : Nat) (pts : Int) :
    (awardApply s ownerId restaurantId orderId pts).2.pointsEarned = pts ∧
    (∃ cid, (awardApply s ownerId restaurantId orderId pts).1.txns =
      s.txns ++ [⟨cid, restaurantId, pts, .earned, some orderId⟩]) ∧
    ((awardApply s ownerId restaurantId orderId pts).1.cards.find?
        (fun c => c.userId == ownerId)).map (fun c => c.points) =
      some ((((s.cards.find? (fun c => c.userId == ownerId)).map
        (fun c => c.points)).getD 0) + pts) := by
  unfold awardApply
  cases hcfind : s.cards.find? (fun c => c.userId == ownerId) with
  | some card =>
    refine ⟨rfl, ⟨card.id, rfl⟩, ?_⟩
    show ((s.cards.map (fun c => if c.id == card.id then
        { c with points := card.points + pts } else c)).find?
        (fun c => c.userId == ownerId)).map (fun c => c.points) = _
    rw [find?_map_pres _ _ _ (fun c => by split_ifs <;> rfl), hcfind]
    simp
  | none =>
    refine ⟨rfl, ⟨s.nextCardId, rfl⟩, ?_⟩
    show (((s.cards ++ [(⟨s.nextCardId, ownerId, 0⟩ : LoyaltyCard)]).map (fun c =>
        if c.id == s.nextCardId then { c with points := (0 : Int) + pts } else c)).find?
        (fun c => c.userId == ownerId)).map (fun c => c.points) = _
    rw [find?_map_pres _ _ _ (fun c => by split_ifs <;> rfl), List.find?_append, hcfind]
    simp

theorem award_points_ok {s : LoyaltyState} {role : Role} {arid : Option Nat}
    {req : PointsEarnedRequest} {s2 : LoyaltyState} {resp : PointsEarnedResponse}
    (h : award_points_for_order s role arid req = .ok (s2, resp)) :
    ∃ ord uid, s.orders.find? (fun o => o.id == req.orderId) = some ord ∧
      ord.userId = some uid ∧ ord.status = OrderStatus.completed ∧
      0 < req.orderAmount ∧
      s.txns.find? (fun t => t.orderId == some req.orderId && t.type == TxnType.earned) = none ∧
      resp.pointsEarned = ⌊req.orderAmount * 1⌋ ∧
      (∃ cid, s2.txns = s.txns ++
        [⟨cid, req.restaurantId, resp.pointsEarned, .earned, some req.orderId⟩]) ∧
      (s2.cards.find? (fun c => c.userId == uid)).map (fun c => c.points) =
        some ((((s.cards.find? (fun c => c.userId == uid)).map (fun c => c.points)).getD 0) +
          resp.pointsEarned) := by
  unfold award_points_for_order at h
  split at h
  · cases h
  · rename_i hamt
    split at h
    · cases h
    · split at h
      · cases h
      · rename_i ord hord
        split at h
        · cases h
        · rename_i uid huid
          split at h
          · cases h
          · split at h
            · cases h
            · rename_i hst
              split at h
              · cases h
              · rename_i htx
                have hamt2 : 0 < req.orderAmount := lt_of_not_le hamt
                have hst2 : ord.status = OrderStatus.completed := not_not.1 hst
                have htx2 : s.txns.find?
                    (fun t => t.orderId == some req.orderId && t.type == TxnType.earned) = none :=
                  Option.not_isSome_iff_eq_none.1 htx
                have hfloor : pyInt (req.orderAmount * 1) = ⌊req.orderAmount * 1⌋ := by
                  unfold pyInt
                  rw [if_pos (by positivity)]
                have hpair := (Except.ok.inj h).symm
                have hs2 : s2 = (awardApply s uid req.restaurantId req.orderId
                    (pyInt (req.orderAmount * 1))).1 := congrArg Prod.fst hpair
                have hresp : resp = (awardApply s uid req.restaurantId req.orderId
                    (pyInt (req.orderAmount * 1))).2 := congrArg Prod.snd hpair
                obtain ⟨ha1, ⟨cid, ha2⟩, ha3⟩ := awardApply_spec s uid req.restaurantId
                  req.orderId (pyInt (req.orderAmount * 1))
                refine ⟨ord, uid, hord, huid, hst2, hamt2, htx2, ?_, ⟨cid, ?_⟩, ?_⟩
                · rw [hresp, ha1, hfloor]
                · rw [hresp, hs2, ha2, ha1]
                · rw [hresp, hs2, ha3, ha1]
  

/-- C5: `award` fails unless the order is COMPLETED, fails when an EARNED
transaction already references the order, and fails when the order has no
owning user; on success it awards `floor(orderAmount * 1.0)` points, inserts
exactly one EARNED transaction linked to the order, and increments the
customer's card balance by exactly that amount. -/
theorem award_points_correct (s : LoyaltyState) (role : Role) (arid : Option Nat)
    (req : PointsEarnedRequest) (ord : OrderRec)
    (hord : s.orders.find? (fun o => o.id == req.orderId) = some ord) :
    (ord.status ≠ OrderStatus.completed →
       ∀ out, award_points_for_order s role arid req ≠ .ok out) ∧
    ((s.txns.find? (fun t => t.orderId == some req.orderId &&
        t.type == TxnType.earned)).isSome →
       ∀ out, award_points_for_order s role arid req ≠ .ok out) ∧
    (ord.userId = none → ∀ out, award_points_for_order s role arid req ≠ .ok out) ∧
    (∀ s2 resp, award_points_for_order s role arid req = .ok (s2, resp) →
       resp.pointsEarned = ⌊req.orderAmount * 1⌋ ∧
       (∃ cid, s2.txns = s.txns ++
         [⟨cid, req.restaurantId, resp.pointsEarned, .earned, some req.orderId⟩]) ∧
       (∃ uid, ord.userId = some uid ∧
          (s2.cards.find? (fun c => c.userId == uid)).map (fun c => c.points) =
            some ((((s.cards.find? (fun c => c.userId == uid)).map
              (fun c => c.points)).getD 0) + resp.pointsEarned))) := by
  refine ⟨?_, ?_, ?_, ?_⟩
  · intro hst out h
    obtain ⟨s2, resp⟩ := out
    obtain ⟨ord', uid, hord', _, hst', _⟩ := award_points_ok h
    rw [hord] at hord'
    obtain rfl := Option.some.inj hord'
    exact hst hst'
  · intro hsome out h
    obtain ⟨s2, resp⟩ := out
    obtain ⟨ord', uid, hord', _, _, _, htx, _⟩ := award_points_ok h
    rw [htx] at hsome
    simp at hsome
  · intro hnone out h
    obtain ⟨s2, resp⟩ := out
    obtain ⟨ord', uid, hord', huid, _⟩ := award_points_ok h
    rw [hord] at hord'
    obtain rfl := Option.some.inj hord'
    rw [hnone] at huid
    cases huid
  · intro s2 resp h
    obtain ⟨ord', uid, hord', huid, _, _, _, h1, h2, h3⟩ := award_points_ok h
    rw [hord] at hord'
    obtain rfl := Option.some.inj hord'
    exact ⟨h1, h2, uid, huid, h3⟩

theorem award_eval :
    award_points_for_order awardState .manager (some 1) awardReq = .ok (awardState2, awardResp) := by
  norm_num [award_points_for_order, awardApply, pyInt, awardState, awardOrder, awardReq,
    awardState2, awardResp, awardTxn, List.find?]

/-- Witness for C5: the concrete award. -/
theorem award_points_correct_witness :
    awardResp.pointsEarned = ⌊awardReq.orderAmount * 1⌋ ∧
    awardState2.txns.length = awardState.txns.length + 1 ∧
    (awardState2.cards.find? (fun c => c.userId == 7)).map (fun c => c.points) =
      some ((((awardState.cards.find? (fun c => c.userId == 7)).map
        (fun c => c.points)).getD 0) + awardResp.pointsEarned) := by
  have h := (award_points_correct awardState .manager (some 1) awardReq awardOrder rfl).2.2.2
    awardState2 awardResp award_eval
  obtain ⟨h1, ⟨cid, h2⟩, uid, huid, h3⟩ := h
  have huid7 : (some 7 : Option Nat) = some uid := huid
  obtain rfl := (Option.some.inj huid7).symm
  refine ⟨h1, ?_, h3⟩
  rw [h2]
  simp

theorem redeem_eval : redeem_points loyState 7 redeemReq = .ok (redeemState2, redeemResp) := by
  norm_num [redeem_points, validRedemption, loyState, loyCard, redeemReq, List.find?,
    minimumRedemption, pointsToMoneyRatio, redeemState2, redeemResp]

/-- Witness for C3: redeeming 150 points from a 150-point card. -/
theorem loyalty_redeem_correct_witness :
    redeemResp.discountAmount = (redeemReq.pointsToRedeem : Rat) / 100 ∧
    redeemState2.txns = loyState.txns ++
      [⟨loyCard.id, redeemReq.restaurantId, -redeemReq.pointsToRedeem, .redeemed, none⟩] ∧
    redeemState2.cards.find? (fun c => c.userId == 7) =
      some { loyCard with points := loyCard.points - redeemReq.pointsToRedeem } := by
  have h := (loyalty_redeem_correct loyState 7 redeemReq loyCard rfl).1 redeemState2
    redeemResp redeem_eval
  exact ⟨h.1, h.2.1, h.2.2⟩

/-- C4 (amended): `award_points_for_order` checks for an existing EARNED
transaction before inserting, so it preserves at-most-one-EARNED-per-order;
the manual-transaction endpoint performs no such check (see the
counterexample). -/
theorem award_preserves_at_most_one_earned (s : LoyaltyState) (role : Role)
    (arid : Option Nat) (req : PointsEarnedRequest) (s2 : LoyaltyState)
    (resp : PointsEarnedResponse)
    (h : award_points_for_order s role arid req = .ok (s2, resp))
    (hinv : atMostOneEarned s) : atMostOneEarned s2 := by
  obtain ⟨ord, uid, hord, huid, hst, hamt, htx, hpts, ⟨cid, htxns⟩, hcards⟩ :=
    award_points_ok h
  intro oid
  rw [htxns, List.filter_append]
  by_cases hoid : oid = req.orderId
  · subst hoid
    have h0 : s.txns.filter
        (fun t => t.orderId == some req.orderId && t.type == TxnType.earned) = [] := by
      rw [List.filter_eq_nil_iff]
      intro t ht
      have := List.find?_eq_none.1 htx t ht
      simpa using this
    rw [h0]
    simp
  · have h1 : (List.filter (fun t => t.orderId == some oid && t.type == TxnType.earned)
        [(⟨cid, req.restaurantId, resp.pointsEarned, .earned, some req.orderId⟩ : LoyaltyTxn)]) =
        [] := by
      simp only [List.filter_cons, List.filter_nil]
      rw [if_neg]
      simp only [Bool.and_eq_true, beq_iff_eq, Option.some.injEq]
      intro hcon
      exact hoid hcon.1.symm
    rw [h1, List.append_nil]
    exact hinv oid

/-- Witness for C4 (amended): the concrete award preserves the invariant. -/
theorem award_preserves_at_most_one_earned_witness : atMostOneEarned awardState2 := by
  refine award_preserves_at_most_one_earned awardState .manager (some 1) awardReq awardState2
    awardResp award_eval ?_
  intro oid
  simp [awardState]

/-- C4 counterexample: the ledger already holds an EARNED transaction for order
7, yet the manual-transaction endpoint accepts a second EARNED entry for the
same order, leaving two EARNED transactions for orderId 7. -/
theorem earned_uniqueness_spec_refuted : ¬ specC4 := by
  intro hspec
  have heval : create_manual_loyalty_transaction c4State .admin none c4Data =
      .ok (c4State2, c4Txn) := by
    rfl
  have hinv : atMostOneEarned c4State := by
    intro oid
    exact le_trans (List.length_filter_le _ _) (by norm_num [c4State])
  have h2 := hspec.2 c4State .admin none c4Data (c4State2, c4Txn) heval hinv 7
  exact absurd h2 (by decide)

/-- C9: the sign rule the claim states rejects a REDEEMED entry of +50 points,
but the code's pydantic validator never sees the `type` field (it is declared
after `points`, so it is absent from `values` when `points` validates) and the
endpoint accepts the entry, increasing the card balance from 100 to 150. -/
theorem manual_transaction_sign_check_dead :
    claimSignRule TxnType.redeemed 50 = false ∧
    validate_points none 50 = true ∧
    create_manual_loyalty_transaction c9State .admin none c9Data = .ok (c9State2, c9Txn) := by
  refine ⟨rfl, rfl, ?_⟩
  rfl

/-- C8: `initiate` fails when the order is already PAID; when a Payment record
already exists for the order it returns a flagged non-error PAYMENT_EXISTS
response leaving the state unchanged; starting with no Payment record, two
consecutive `initiate` calls yield a success then the flagged response, and the
order ends with exactly one Payment record. -/
theorem initiate_payment_at_most_one (s : PaymentsState) (actorId : Nat) (role : Role)
    (orderId : Nat) (gw : GatewayReply) (ord : PayOrderRec)
    (hord : s.orders.find? (fun o => o.id == orderId) = some ord) :
    (ord.paymentStatus = PayStatus.paid →
       ∀ out, initiate_payment true s actorId role orderId gw ≠ .ok out) ∧
    (∀ p, s.payments.find? (fun x => x.orderId == orderId) = some p →
       ord.paymentStatus ≠ PayStatus.paid →
       ¬ (role = Role.client ∧ ord.userId ≠ some actorId) →
       initiate_payment true s actorId role orderId gw =
         .ok (s, { success := false, paymentId := none, transactionId := none,
                   formUrl := none, errorCode := some "PAYMENT_EXISTS" })) ∧
    (∀ txnId formUrl amount,
       s.payments.filter (fun x => x.orderId == orderId) = [] →
       ord.paymentStatus ≠ PayStatus.paid →
       ¬ (role = Role.client ∧ ord.userId ≠ some actorId) →
       gw = GatewayReply.ok txnId formUrl amount →
       ∃ s1 r1 r2, initiate_payment true s actorId role orderId gw = .ok (s1, r1) ∧
         r1.success = true ∧
         initiate_payment true s1 actorId role orderId gw = .ok (s1, r2) ∧
         r2.success = false ∧ r2.errorCode = some "PAYMENT_EXISTS" ∧
         (s1.payments.filter (fun x => x.orderId == orderId)).length = 1) := by
  refine ⟨?_, ?_, ?_⟩
  · intro hpaid out h
    unfold initiate_payment at h
    rw [if_neg (by simp)] at h
    split at h
    · cases h
    · rename_i ord' hord'
      rw [hord] at hord'
      obtain rfl := Option.some.inj hord'
      rw [if_pos hpaid] at h
      split at h
      · cases h
      · cases h
  · intro p hp hnotpaid hguard
    simp [initiate_payment, hord, hp, hnotpaid, hguard]
  · intro txnId formUrl amount hnop hnotpaid hguard hgw
    have hfnone : s.payments.find? (fun x => x.orderId == orderId) = none :=
      List.find?_eq_none.2 (fun x hx => by
        have := List.filter_eq_nil_iff.1 hnop x hx
        simpa using this)
    refine ⟨{ s with
              payments := s.payments ++ [(⟨s.nextPaymentId, txnId, orderId⟩ : PaymentRec)],
              nextPaymentId := s.nextPaymentId + 1 },
            { success := true, paymentId := some s.nextPaymentId,
              transactionId := some txnId, formUrl := some formUrl, errorCode := none },
            { success := false, paymentId := none, transactionId := none,
              formUrl := none, errorCode := some "PAYMENT_EXISTS" }, ?_, rfl, ?_, rfl, rfl, ?_⟩
    · subst hgw
      simp [initiate_payment, hord, hnotpaid, hguard, hfnone]
    · simp [initiate_payment, hord, hnotpaid, hguard, List.find?_append, hfnone]
    · rw [List.filter_append, hnop]
      simp



/-- Witness for C8: a PAID order blocks initiation; an existing record yields
the flagged response unchanged; the double call leaves exactly one record. -/
theorem initiate_payment_at_most_one_witness :
    initiate_payment true payPaidState 1 .client 5 payGw ≠ .ok (payState2, payFlagged) ∧
    initiate_payment true payState2 1 .client 5 payGw = .ok (payState2, payFlagged) ∧
    (payState2.payments.filter (fun x => x.orderId == 5)).length = 1 := by
  refine ⟨(initiate_payment_at_most_one payPaidState 1 .client 5 payGw paidOrder rfl).1
            rfl _,
          (initiate_payment_at_most_one payState2 1 .client 5 payGw payOrder rfl).2.1
            payRec rfl (by decide) (by decide), ?_⟩
  obtain ⟨s1, r1, r2, h1, h2, h3, h4, h5, h6⟩ :=
    (initiate_payment_at_most_one payState 1 .client 5 payGw payOrder rfl).2.2
      "T1" "U" "A" rfl (by decide) (by decide) rfl
  have heval : initiate_payment true payState 1 .client 5 payGw = .ok (payState2, paySucc) :=
    rfl
  rw [heval] at h1
  have hpair := Except.ok.inj h1
  have hs1 : payState2 = s1 := congrArg Prod.fst hpair
  rw [hs1]
  exact h6

end Api
